import Mathlib

/-!
Verification of the FBIP v3 multi-format binary event protocol
(`src/protocols/enhanced_fbip_v2.py`).

Embedding conventions:
* Python `bytes` are `List Nat` with every element `< 256`; Python `str`
  values are likewise modelled by their UTF-8 byte sequences (all strings
  appearing in the protocol are ASCII).
* Python `float` (IEEE-754 binary64) values are modelled as `ℚ`.  Where the
  exact bit pattern matters (msgpack `float64` fields, `numpy.float32`
  blobs) an explicit executable IEEE-754 round-to-nearest-even encoder is
  used, and "this rational is exactly representable" appears as an explicit
  decidable side condition.  Exact rational arithmetic is used for the
  intermediate arithmetic of the source (the deviation from float64
  arithmetic is ~1e-16, far below the 1e-5 / 5e-4 granularity the claims
  are about).
* `time.time()`, `time.perf_counter()`, `uuid`, and `numpy.random` draws
  are external inputs of the program; they are passed to the embedded
  functions as explicit oracle arguments.
* Python exceptions are modelled by `Except`: a raised exception is
  `.error`, a normal return is `.ok`.
-/

set_option maxRecDepth 8000

/-! ## Byte-level utilities -/

/-- Big-endian byte encoding of `n` on `k` bytes (as in `struct.pack("!...")`). -/
def beBytes : Nat → Nat → List Nat
  | 0, _ => []
  | k+1, n => beBytes k (n / 256) ++ [n % 256]

/-- Big-endian value of a byte list. -/
def beVal (bs : List Nat) : Nat := bs.foldl (fun acc b => acc * 256 + b) 0

/-- Little-endian byte encoding of `n` on `k` bytes (numpy `tobytes` is
little-endian on the reference platform). -/
def leBytes : Nat → Nat → List Nat
  | 0, _ => []
  | k+1, n => n % 256 :: leBytes k (n / 256)

/-- Little-endian value of a byte list. -/
def leVal : List Nat → Nat
  | [] => 0
  | b :: bs => b + 256 * leVal bs

/-- Read exactly `n` bytes from the front of a byte list. -/
def readN (n : Nat) (bs : List Nat) : Option (List Nat × List Nat) :=
  if n ≤ bs.length then some (bs.take n, bs.drop n) else none

/-- ASCII bytes of a Lean string literal (used to write the protocol's
string constants; all of them are ASCII). -/
def strB (s : String) : List Nat := s.data.map Char.toNat

/-- Bitwise XOR of the low `k` bits of two naturals, written out with
structural recursion so that it reduces inside the kernel. -/
def xorN : Nat → Nat → Nat → Nat
  | 0, _, _ => 0
  | k+1, a, b => ((a + b) % 2) + 2 * xorN k (a / 2) (b / 2)

/-! ## CRC-32 (zlib.crc32) and Adler-32 (zlib stream trailer) -/

/-- One shift-xor step of the reflected CRC-32 with polynomial 0xEDB88320. -/
def crcStep (c : Nat) : Nat :=
  if c % 2 = 1 then xorN 32 (c / 2) 0xEDB88320 else c / 2

/-- Iterate `crcStep` `k` times. -/
def crcStepN : Nat → Nat → Nat
  | 0, c => c
  | k+1, c => crcStepN k (crcStep c)

/-- Fold one byte into the running CRC-32 state. -/
def crcByte (c b : Nat) : Nat := crcStepN 8 (xorN 32 c b)

/-- `zlib.crc32(data) & 0xFFFFFFFF`. -/
def crc32 (data : List Nat) : Nat :=
  xorN 32 (data.foldl crcByte 0xFFFFFFFF) 0xFFFFFFFF

/-- Adler-32 checksum (the trailer of a zlib stream). -/
def adler32 (data : List Nat) : Nat :=
  let p := data.foldl (fun st b => ((st.1 + b) % 65521, (st.2 + st.1 + b) % 65521))
    ((1 : Nat), (0 : Nat))
  p.2 * 65536 + p.1

/-! ## IEEE-754 binary64 / binary32 encoding of rationals

`toF64bits`/`toF32bits` compute the round-to-nearest-even floating point
encoding of a positive rational given as numerator/denominator, exactly as
CPython / numpy produce it for msgpack `float64` fields and `float32`
array blobs. -/

/-- `log2F fuel n` is `⌊log₂ n⌋` for `n ≥ 1` whenever `fuel ≥ log₂ n`. -/
def log2F : Nat → Nat → Nat
  | 0, _ => 0
  | f+1, n => if n ≤ 1 then 0 else log2F f (n / 2) + 1

/-- `⌊log₂ n⌋` (0 for `n = 0`). -/
def natLog2 (n : Nat) : Nat := log2F n n

/-- Decide `2^k ≤ a/b` for naturals `a b ≥ 1` and integer `k`. -/
def pow2LeQ (a b : Nat) (k : Int) : Bool :=
  if 0 ≤ k then b * 2 ^ k.toNat ≤ a else b ≤ a * 2 ^ (-k).toNat

/-- `⌊log₂ (a/b)⌋` for `a b ≥ 1`. -/
def qFloorLog2 (a b : Nat) : Int :=
  let k0 : Int := (natLog2 a : Int) - (natLog2 b : Int)
  if pow2LeQ a b (k0 + 1) then k0 + 1
  else if pow2LeQ a b k0 then k0
  else k0 - 1

/-- Round `num/den` to the nearest natural, ties to even. -/
def halfEvenNat (num den : Nat) : Nat :=
  let q := num / den
  let r := num % den
  if 2 * r > den ∨ (2 * r = den ∧ q % 2 = 1) then q + 1 else q

/-- Round-to-nearest-even IEEE encoding of the positive rational `a/b`,
parameterized by mantissa width `mb`, exponent bias `bias` and infinity
exponent field `einf` (binary64: 52/1023/2047, binary32: 23/127/255).
Returns the bit pattern without the sign bit. -/
def fbitsEncodePos (mb bias einf a b : Nat) : Nat :=
  let k : Int := qFloorLog2 a b
  let s : Int := (mb : Int) - k
  let num := if 0 ≤ s then a * 2 ^ s.toNat else a
  let d := if 0 ≤ s then b else b * 2 ^ (-s).toNat
  let m0 := halfEvenNat num d
  let m := if m0 = 2 ^ (mb + 1) then 2 ^ mb else m0
  let k' : Int := if m0 = 2 ^ (mb + 1) then k + 1 else k
  let e : Int := k' + bias
  if e ≥ einf then einf * 2 ^ mb
  else if e ≤ 0 then
    let msub := halfEvenNat (a * 2 ^ (bias + mb - 1)) b
    if msub ≥ 2 ^ mb then 2 ^ mb else msub
  else e.toNat * 2 ^ mb + (m - 2 ^ mb)

/-- IEEE binary64 bit pattern of a rational (round to nearest, ties even). -/
def toF64bits (q : ℚ) : Nat :=
  if q.num = 0 then 0
  else if 0 < q.num then fbitsEncodePos 52 1023 2047 q.num.toNat q.den
  else 2 ^ 63 + fbitsEncodePos 52 1023 2047 (-q.num).toNat q.den

/-- Exact rational value of an IEEE binary64 bit pattern (NaN/Inf, which are
outside the modelled range, are mapped to 0). -/
def f64ToRat (bits : Nat) : ℚ :=
  let s : Nat := bits / 2 ^ 63 % 2
  let e : Nat := bits / 2 ^ 52 % 2 ^ 11
  let f : Nat := bits % 2 ^ 52
  let sgn : Int → Int := fun n => if s = 1 then -n else n
  if e = 0 then mkRat (sgn (f : Int)) (2 ^ 1074)
  else if e = 2047 then 0
  else if e ≥ 1075 then mkRat (sgn (((2 ^ 52 + f) * 2 ^ (e - 1075) : Nat) : Int)) 1
  else mkRat (sgn ((2 ^ 52 + f : Nat) : Int)) (2 ^ (1075 - e))

/-- IEEE binary32 bit pattern of a rational (round to nearest, ties even). -/
def toF32bits (q : ℚ) : Nat :=
  if q.num = 0 then 0
  else if 0 < q.num then fbitsEncodePos 23 127 255 q.num.toNat q.den
  else 2 ^ 31 + fbitsEncodePos 23 127 255 (-q.num).toNat q.den

/-- Exact rational value of an IEEE binary32 bit pattern. -/
def f32ToRat (bits : Nat) : ℚ :=
  let s : Nat := bits / 2 ^ 31 % 2
  let e : Nat := bits / 2 ^ 23 % 2 ^ 8
  let f : Nat := bits % 2 ^ 23
  let sgn : Int → Int := fun n => if s = 1 then -n else n
  if e = 0 then mkRat (sgn (f : Int)) (2 ^ 149)
  else if e = 255 then 0
  else if e ≥ 150 then mkRat (sgn (((2 ^ 23 + f) * 2 ^ (e - 150) : Nat) : Int)) 1
  else mkRat (sgn ((2 ^ 23 + f : Nat) : Int)) (2 ^ (150 - e))

/-- `numpy.ndarray.astype(float32).tobytes()`: little-endian float32 blob. -/
def f32blob (xs : List ℚ) : List Nat := xs.flatMap fun q => leBytes 4 (toF32bits q)

/-- `numpy.frombuffer(·, dtype=float32)`: decode a little-endian float32
blob back into its values (a partial final chunk is dropped, matching the
4-byte alignment numpy requires on well-formed input). -/
def f32unblob : List Nat → List ℚ
  | b0 :: b1 :: b2 :: b3 :: rest => f32ToRat (leVal [b0, b1, b2, b3]) :: f32unblob rest
  | _ => []

/-! ## Python `round(x, k)` (round half to even, modelled exactly on ℚ) -/

/-- Python `round(q, k)`: round to `k` decimal places, ties to even.
(The float64 re-quantization of the decimal result, ~1e-17, is not
modelled; see the header note.) -/
def roundDec (k : Nat) (q : ℚ) : ℚ :=
  let d := 10 ^ k
  if 0 ≤ q.num then mkRat (halfEvenNat (q.num.toNat * d) q.den : Int) d
  else -(mkRat (halfEvenNat ((-q.num).toNat * d) q.den : Int) d)

/-! ## MessagePack (`msgpack.packb` / `msgpack.unpackb(raw=False)`)

The value universe actually exchanged by the protocol: nonnegative
integers, floats, (ASCII) strings, byte strings, booleans, arrays and
maps.  `packVal` emits exactly the bytes `msgpack.packb` produces for such
values (smallest applicable format, strings as `str`, bytes as `bin`,
floats as big-endian `float64`); `unpackVal` is the matching parser.
-/

inductive MVal where
  | nil : MVal
  | int : Nat → MVal
  | float : ℚ → MVal
  | str : List Nat → MVal
  | bin : List Nat → MVal
  | bool : Bool → MVal
  | list : List MVal → MVal
  | map : List (MVal × MVal) → MVal

/-- msgpack header+payload of a nonnegative integer (fixint / uint8/16/32/64). -/
def packInt (n : Nat) : List Nat :=
  if n < 0x80 then [n]
  else if n < 0x100 then [0xcc, n]
  else if n < 0x10000 then 0xcd :: beBytes 2 n
  else if n < 0x100000000 then 0xce :: beBytes 4 n
  else 0xcf :: beBytes 8 n

/-- msgpack header of a `str` of byte length `L` (fixstr / str8 / str16). -/
def strHeader (L : Nat) : List Nat :=
  if L < 32 then [0xa0 + L]
  else if L < 0x100 then [0xd9, L]
  else 0xda :: beBytes 2 L

/-- msgpack header of a `bin` of byte length `L` (bin8 / bin16). -/
def binHeader (L : Nat) : List Nat :=
  if L < 0x100 then [0xc4, L]
  else 0xc5 :: beBytes 2 L

/-- msgpack header of an array of `n` elements (fixarray / array16). -/
def listHeader (n : Nat) : List Nat :=
  if n < 16 then [0x90 + n]
  else 0xdc :: beBytes 2 n

/-- msgpack header of a map of `n` pairs (fixmap / map16). -/
def mapHeader (n : Nat) : List Nat :=
  if n < 16 then [0x80 + n]
  else 0xde :: beBytes 2 n

mutual

/-- `msgpack.packb` on the modelled value universe. -/
def packVal : MVal → List Nat
  | .nil => [0xc0]
  | .int n => packInt n
  | .float q => 0xcb :: beBytes 8 (toF64bits q)
  | .str s => strHeader s.length ++ s
  | .bin b => binHeader b.length ++ b
  | .bool b => [if b then 0xc3 else 0xc2]
  | .list xs => listHeader xs.length ++ packSeq xs
  | .map ps => mapHeader ps.length ++ packPairs ps

/-- Concatenated packing of array elements. -/
def packSeq : List MVal → List Nat
  | [] => []
  | x :: xs => packVal x ++ packSeq xs

/-- Concatenated packing of map entries (key then value). -/
def packPairs : List (MVal × MVal) → List Nat
  | [] => []
  | (k, v) :: ps => packVal k ++ packVal v ++ packPairs ps

end

mutual

/-- msgpack parser; `fuel` bounds the container-nesting / element count of
the parse tree and is decremented on every recursive call, making the
recursion structural (so it reduces in the kernel). -/
def unpackVal : Nat → List Nat → Option (MVal × List Nat)
  | 0, _ => none
  | _+1, [] => none
  | f+1, b :: rest =>
    if b < 0x80 then some (.int b, rest)
    else if b < 0x90 then
      (unpackPairs f (b - 0x80) rest).map fun (ps, r) => (.map ps, r)
    else if b < 0xa0 then
      (unpackSeq f (b - 0x90) rest).map fun (xs, r) => (.list xs, r)
    else if b < 0xc0 then
      (readN (b - 0xa0) rest).map fun (s, r) => (.str s, r)
    else if b = 0xc0 then some (.nil, rest)
    else if b = 0xc2 then some (.bool false, rest)
    else if b = 0xc3 then some (.bool true, rest)
    else if b = 0xc4 then
      match rest with
      | l :: r => (readN l r).map fun (s, r2) => (.bin s, r2)
      | [] => none
    else if b = 0xc5 then
      match rest with
      | h :: l :: r => (readN (h * 256 + l) r).map fun (s, r2) => (.bin s, r2)
      | _ => none
    else if b = 0xcb then
      (readN 8 rest).map fun (s, r) => (.float (f64ToRat (beVal s)), r)
    else if b = 0xcc then
      match rest with
      | n :: r => some (.int n, r)
      | [] => none
    else if b = 0xcd then
      (readN 2 rest).map fun (s, r) => (.int (beVal s), r)
    else if b = 0xce then
      (readN 4 rest).map fun (s, r) => (.int (beVal s), r)
    else if b = 0xcf then
      (readN 8 rest).map fun (s, r) => (.int (beVal s), r)
    else if b = 0xd9 then
      match rest with
      | l :: r => (readN l r).map fun (s, r2) => (.str s, r2)
      | [] => none
    else if b = 0xda then
      match rest with
      | h :: l :: r => (readN (h * 256 + l) r).map fun (s, r2) => (.str s, r2)
      | _ => none
    else if b = 0xdc then
      match rest with
      | h :: l :: r => (unpackSeq f (h * 256 + l) r).map fun (xs, r2) => (.list xs, r2)
      | _ => none
    else if b = 0xde then
      match rest with
      | h :: l :: r => (unpackPairs f (h * 256 + l) r).map fun (ps, r2) => (.map ps, r2)
      | _ => none
    else none

/-- Parse `n` consecutive array elements. -/
def unpackSeq : Nat → Nat → List Nat → Option (List MVal × List Nat)
  | _, 0, rest => some ([], rest)
  | 0, _+1, _ => none
  | f+1, n+1, rest => do
    let (v, r) ← unpackVal f rest
    let (vs, r2) ← unpackSeq f n r
    pure (v :: vs, r2)

/-- Parse `n` consecutive key/value pairs. -/
def unpackPairs : Nat → Nat → List Nat → Option (List (MVal × MVal) × List Nat)
  | _, 0, rest => some ([], rest)
  | 0, _+1, _ => none
  | f+1, n+1, rest => do
    let (k, r) ← unpackVal f rest
    let (v, r2) ← unpackVal f r
    let (ps, r3) ← unpackPairs f n r2
    pure ((k, v) :: ps, r3)

end

/-- `msgpack.unpackb(data, raw=False)`: parse one value and require that it
consumes the whole input ("extra data" otherwise, as msgpack raises). -/
def unpackTop (data : List Nat) : Except (List Nat) MVal :=
  match unpackVal (2 * data.length + 4) data with
  | some (v, []) => .ok v
  | some (_, _ :: _) => .error (strB ("msgpack extra data"))
  | none => .error (strB ("msgpack unpack failed"))

/-! ### Well-formedness of exchanged values

`wfV v` captures exactly the values the Python protocol exchanges: integers
below 2⁶⁴, floats that are genuine IEEE binary64 values (CPython floats),
ASCII strings and byte strings below the str16/bin16 length limits, and
containers below the 16-bit element-count limits.  On such values packing
and unpacking are mutually inverse. -/

mutual

def wfV : MVal → Bool
  | .nil => true
  | .int n => n < 2 ^ 64
  | .float q => decide (f64ToRat (toF64bits q) = q) && decide (toF64bits q < 2 ^ 64)
  | .str s => s.length < 2 ^ 16 && s.all (· < 128)
  | .bin b => b.length < 2 ^ 16 && b.all (· < 256)
  | .bool _ => true
  | .list xs => xs.length < 2 ^ 16 && wfSeq xs
  | .map ps => ps.length < 2 ^ 16 && wfPairs ps

def wfSeq : List MVal → Bool
  | [] => true
  | x :: xs => wfV x && wfSeq xs

def wfPairs : List (MVal × MVal) → Bool
  | [] => true
  | (k, v) :: ps => wfV k && wfV v && wfPairs ps

end

mutual

/-- Fuel needed by `unpackVal` to parse `packVal v`. -/
def needV : MVal → Nat
  | .nil => 1
  | .int _ => 1
  | .float _ => 1
  | .str _ => 1
  | .bin _ => 1
  | .bool _ => 1
  | .list xs => needSeq xs + 1
  | .map ps => needPairs ps + 1

def needSeq : List MVal → Nat
  | [] => 0
  | x :: xs => 1 + max (needV x) (needSeq xs)

def needPairs : List (MVal × MVal) → Nat
  | [] => 0
  | (k, v) :: ps => 1 + max (needV k) (max (needV v) (needPairs ps))

end

/-! ### Basic byte-level lemmas -/

theorem length_beBytes (k n : Nat) : (beBytes k n).length = k := by
  induction k generalizing n with
  | zero => rfl
  | succ k ih => simp [beBytes, ih]

theorem beVal_concat (xs : List Nat) (b : Nat) :
    beVal (xs ++ [b]) = beVal xs * 256 + b := by
  simp [beVal, List.foldl_append]

theorem beVal_beBytes (k n : Nat) (h : n < 256 ^ k) : beVal (beBytes k n) = n := by
  induction k generalizing n with
  | zero =>
    simp [beBytes, beVal]
    omega
  | succ k ih =>
    rw [beBytes, beVal_concat, ih (n / 256) (by
      have : 256 ^ (k + 1) = 256 ^ k * 256 := by ring
      omega)]
    omega

theorem readN_append (n : Nat) (xs rest : List Nat) (h : xs.length = n) :
    readN n (xs ++ rest) = some (xs, rest) := by
  subst h
  simp [readN, List.take_left, List.drop_left]

theorem beBytes_two (n : Nat) : beBytes 2 n = [n / 256 % 256, n % 256] := rfl

/-! ### Parser step lemmas (one per msgpack header form) -/

theorem unpack_step_fixint (f b : Nat) (rest : List Nat) (h : b < 0x80) :
    unpackVal (f + 1) (b :: rest) = some (.int b, rest) := by
  simp only [unpackVal]
  rw [if_pos h]

theorem unpack_step_fixmap (f n : Nat) (rest : List Nat) (h : n < 16) :
    unpackVal (f + 1) ((0x80 + n) :: rest) =
      (unpackPairs f n rest).map fun (ps, r) => (.map ps, r) := by
  simp only [unpackVal]
  rw [if_neg (by omega), if_pos (by omega)]
  simp

theorem unpack_step_fixarray (f n : Nat) (rest : List Nat) (h : n < 16) :
    unpackVal (f + 1) ((0x90 + n) :: rest) =
      (unpackSeq f n rest).map fun (xs, r) => (.list xs, r) := by
  simp only [unpackVal]
  rw [if_neg (by omega), if_neg (by omega), if_pos (by omega)]
  simp

theorem unpack_step_fixstr (f L : Nat) (rest : List Nat) (h : L < 32) :
    unpackVal (f + 1) ((0xa0 + L) :: rest) =
      (readN L rest).map fun (s, r) => (.str s, r) := by
  simp only [unpackVal]
  rw [if_neg (by omega), if_neg (by omega), if_neg (by omega), if_pos (by omega)]
  simp

theorem unpack_step_nil (f : Nat) (rest : List Nat) :
    unpackVal (f + 1) (0xc0 :: rest) = some (.nil, rest) := by
  with_unfolding_all rfl

theorem unpack_step_false (f : Nat) (rest : List Nat) :
    unpackVal (f + 1) (0xc2 :: rest) = some (.bool false, rest) := by
  with_unfolding_all rfl

theorem unpack_step_true (f : Nat) (rest : List Nat) :
    unpackVal (f + 1) (0xc3 :: rest) = some (.bool true, rest) := by
  with_unfolding_all rfl

theorem unpack_step_bin8 (f L : Nat) (rest : List Nat) :
    unpackVal (f + 1) (0xc4 :: L :: rest) =
      (readN L rest).map fun (s, r) => (.bin s, r) := by
  with_unfolding_all rfl

theorem unpack_step_bin16 (f hi lo : Nat) (rest : List Nat) :
    unpackVal (f + 1) (0xc5 :: hi :: lo :: rest) =
      (readN (hi * 256 + lo) rest).map fun (s, r) => (.bin s, r) := by
  with_unfolding_all rfl

theorem unpack_step_float (f : Nat) (rest : List Nat) :
    unpackVal (f + 1) (0xcb :: rest) =
      (readN 8 rest).map fun (s, r) => (.float (f64ToRat (beVal s)), r) := by
  with_unfolding_all rfl

theorem unpack_step_uint8 (f n : Nat) (rest : List Nat) :
    unpackVal (f + 1) (0xcc :: n :: rest) = some (.int n, rest) := by
  with_unfolding_all rfl

theorem unpack_step_uint16 (f : Nat) (rest : List Nat) :
    unpackVal (f + 1) (0xcd :: rest) =
      (readN 2 rest).map fun (s, r) => (.int (beVal s), r) := by
  with_unfolding_all rfl

theorem unpack_step_uint32 (f : Nat) (rest : List Nat) :
    unpackVal (f + 1) (0xce :: rest) =
      (readN 4 rest).map fun (s, r) => (.int (beVal s), r) := by
  with_unfolding_all rfl

theorem unpack_step_uint64 (f : Nat) (rest : List Nat) :
    unpackVal (f + 1) (0xcf :: rest) =
      (readN 8 rest).map fun (s, r) => (.int (beVal s), r) := by
  with_unfolding_all rfl

theorem unpack_step_str8 (f L : Nat) (rest : List Nat) :
    unpackVal (f + 1) (0xd9 :: L :: rest) =
      (readN L rest).map fun (s, r) => (.str s, r) := by
  with_unfolding_all rfl

theorem unpack_step_str16 (f hi lo : Nat) (rest : List Nat) :
    unpackVal (f + 1) (0xda :: hi :: lo :: rest) =
      (readN (hi * 256 + lo) rest).map fun (s, r) => (.str s, r) := by
  with_unfolding_all rfl

theorem unpack_step_array16 (f hi lo : Nat) (rest : List Nat) :
    unpackVal (f + 1) (0xdc :: hi :: lo :: rest) =
      (unpackSeq f (hi * 256 + lo) rest).map fun (xs, r) => (.list xs, r) := by
  with_unfolding_all rfl

theorem unpack_step_map16 (f hi lo : Nat) (rest : List Nat) :
    unpackVal (f + 1) (0xde :: hi :: lo :: rest) =
      (unpackPairs f (hi * 256 + lo) rest).map fun (ps, r) => (.map ps, r) := by
  with_unfolding_all rfl

theorem one_le_needV (v : MVal) : 1 ≤ needV v := by
  cases v <;> simp [needV]

theorem unpackSeq_succ (f n : Nat) (rest : List Nat) :
    unpackSeq (f + 1) (n + 1) rest =
      (unpackVal f rest).bind fun (v, r) =>
        (unpackSeq f n r).bind fun (vs, r2) => some (v :: vs, r2) := by
  with_unfolding_all rfl

theorem unpackPairs_succ (f n : Nat) (rest : List Nat) :
    unpackPairs (f + 1) (n + 1) rest =
      (unpackVal f rest).bind fun (k, r) =>
        (unpackVal f r).bind fun (v, r2) =>
          (unpackPairs f n r2).bind fun (ps, r3) => some ((k, v) :: ps, r3) := by
  with_unfolding_all rfl

/-- Parsing is a left inverse of packing, on well-formed values, for any
sufficient fuel (joint statement for values / array elements / map pairs). -/
theorem unpack_pack_aux : ∀ f : Nat,
    (∀ v rest, wfV v = true → needV v ≤ f →
      unpackVal f (packVal v ++ rest) = some (v, rest)) ∧
    (∀ xs rest, wfSeq xs = true → needSeq xs ≤ f →
      unpackSeq f xs.length (packSeq xs ++ rest) = some (xs, rest)) ∧
    (∀ ps rest, wfPairs ps = true → needPairs ps ≤ f →
      unpackPairs f ps.length (packPairs ps ++ rest) = some (ps, rest)) := by
  intro f
  induction f using Nat.strong_induction_on with
  | _ f IH =>
  match f with
  | 0 =>
    refine ⟨fun v rest _ hneed => absurd hneed (by have := one_le_needV v; omega),
      fun xs rest _ hneed => ?_, fun ps rest _ hneed => ?_⟩
    · match xs with
      | [] => rfl
      | x :: xs' => simp [needSeq] at hneed
    · match ps with
      | [] => rfl
      | (k, v) :: ps' => simp [needPairs] at hneed
  | f' + 1 =>
    have IHval := fun (h : f' < f' + 1) => (IH f' h).1
    have IHseq := fun (h : f' < f' + 1) => (IH f' h).2.1
    have IHpairs := fun (h : f' < f' + 1) => (IH f' h).2.2
    refine ⟨fun v rest hwf hneed => ?_, fun xs rest hwf hneed => ?_,
      fun ps rest hwf hneed => ?_⟩
    · -- values
      cases v with
      | nil => exact unpack_step_nil f' rest
      | int n =>
        have hn : n < 2 ^ 64 := by simpa [wfV] using hwf
        simp only [packVal, packInt]
        by_cases h1 : n < 0x80
        · rw [if_pos h1, List.singleton_append, unpack_step_fixint f' n rest h1]
        by_cases h2 : n < 0x100
        · rw [if_neg h1, if_pos h2]
          exact unpack_step_uint8 f' n rest
        by_cases h3 : n < 0x10000
        · rw [if_neg h1, if_neg h2, if_pos h3, List.cons_append, unpack_step_uint16,
            readN_append 2 _ rest (length_beBytes 2 n)]
          simp [beVal_beBytes 2 n (by norm_num; omega)]
        by_cases h4 : n < 0x100000000
        · rw [if_neg h1, if_neg h2, if_neg h3, if_pos h4, List.cons_append, unpack_step_uint32,
            readN_append 4 _ rest (length_beBytes 4 n)]
          simp [beVal_beBytes 4 n (by norm_num; omega)]
        · rw [if_neg h1, if_neg h2, if_neg h3, if_neg h4, List.cons_append, unpack_step_uint64,
            readN_append 8 _ rest (length_beBytes 8 n)]
          simp [beVal_beBytes 8 n (by norm_num; omega)]
      | float q =>
        have hq : f64ToRat (toF64bits q) = q ∧ toF64bits q < 2 ^ 64 := by
          simpa [wfV] using hwf
        simp only [packVal]
        rw [List.cons_append, unpack_step_float,
          readN_append 8 _ rest (length_beBytes 8 (toF64bits q))]
        simp [beVal_beBytes 8 _ (show toF64bits q < 256 ^ 8 by norm_num; omega), hq.1]
      | str s =>
        have hs : s.length < 2 ^ 16 := by
          have := hwf
          simp [wfV] at this
          exact this.1
        simp only [packVal, strHeader]
        by_cases h1 : s.length < 32
        · rw [if_pos h1, List.singleton_append, List.cons_append,
            unpack_step_fixstr f' s.length (s ++ rest) h1,
            readN_append s.length s rest rfl]
          rfl
        by_cases h2 : s.length < 0x100
        · rw [if_neg h1, if_pos h2]
          simp only [List.append_assoc, List.cons_append, List.singleton_append,
            List.nil_append]
          rw [unpack_step_str8, readN_append s.length s rest rfl]
          rfl
        · rw [if_neg h1, if_neg h2, beBytes_two]
          simp only [List.append_assoc, List.cons_append, List.singleton_append,
            List.nil_append]
          rw [unpack_step_str16]
          have : s.length / 256 % 256 * 256 + s.length % 256 = s.length := by omega
          rw [this, readN_append s.length s rest rfl]
          rfl
      | bin b =>
        have hb : b.length < 2 ^ 16 := by
          have := hwf
          simp [wfV] at this
          exact this.1
        simp only [packVal, binHeader]
        by_cases h1 : b.length < 0x100
        · rw [if_pos h1]
          simp only [List.append_assoc, List.cons_append, List.singleton_append,
            List.nil_append]
          rw [unpack_step_bin8, readN_append b.length b rest rfl]
          rfl
        · rw [if_neg h1, beBytes_two]
          simp only [List.append_assoc, List.cons_append, List.singleton_append,
            List.nil_append]
          rw [unpack_step_bin16]
          have : b.length / 256 % 256 * 256 + b.length % 256 = b.length := by omega
          rw [this, readN_append b.length b rest rfl]
          rfl
      | bool b =>
        cases b
        · exact unpack_step_false f' rest
        · exact unpack_step_true f' rest
      | list xs =>
        have hx : xs.length < 2 ^ 16 ∧ wfSeq xs = true := by simpa [wfV] using hwf
        have hnx : needSeq xs ≤ f' := by
          simp only [needV] at hneed
          omega
        simp only [packVal, listHeader]
        by_cases h1 : xs.length < 16
        · rw [if_pos h1, List.singleton_append, List.cons_append,
            unpack_step_fixarray f' xs.length _ h1,
            IHseq (by omega) xs rest hx.2 hnx]
          rfl
        · rw [if_neg h1, beBytes_two]
          simp only [List.append_assoc, List.cons_append, List.singleton_append,
            List.nil_append]
          rw [unpack_step_array16]
          have : xs.length / 256 % 256 * 256 + xs.length % 256 = xs.length := by omega
          rw [this, IHseq (by omega) xs rest hx.2 hnx]
          rfl
      | map ps =>
        have hp : ps.length < 2 ^ 16 ∧ wfPairs ps = true := by simpa [wfV] using hwf
        have hnp : needPairs ps ≤ f' := by
          simp only [needV] at hneed
          omega
        simp only [packVal, mapHeader]
        by_cases h1 : ps.length < 16
        · rw [if_pos h1, List.singleton_append, List.cons_append,
            unpack_step_fixmap f' ps.length _ h1,
            IHpairs (by omega) ps rest hp.2 hnp]
          rfl
        · rw [if_neg h1, beBytes_two]
          simp only [List.append_assoc, List.cons_append, List.singleton_append,
            List.nil_append]
          rw [unpack_step_map16]
          have : ps.length / 256 % 256 * 256 + ps.length % 256 = ps.length := by omega
          rw [this, IHpairs (by omega) ps rest hp.2 hnp]
          rfl
    · -- array elements
      match xs with
      | [] => rfl
      | x :: xs' =>
        have hw : wfV x = true ∧ wfSeq xs' = true := by simpa [wfSeq] using hwf
        have hn : needV x ≤ f' ∧ needSeq xs' ≤ f' := by
          simp only [needSeq] at hneed
          omega
        show unpackSeq (f' + 1) (xs'.length + 1) ((packVal x ++ packSeq xs') ++ rest) = _
        rw [List.append_assoc, unpackSeq_succ, IHval (by omega) x _ hw.1 hn.1,
          Option.some_bind']
        show (unpackSeq f' xs'.length (packSeq xs' ++ rest)).bind
          (fun (vs, r2) => some (x :: vs, r2)) = some (x :: xs', rest)
        rw [IHseq (by omega) xs' rest hw.2 hn.2, Option.some_bind']
    · -- map pairs
      match ps with
      | [] => rfl
      | (k, v) :: ps' =>
        have hw : wfV k = true ∧ wfV v = true ∧ wfPairs ps' = true := by
          simpa [wfPairs, and_assoc] using hwf
        have hn : needV k ≤ f' ∧ needV v ≤ f' ∧ needPairs ps' ≤ f' := by
          simp only [needPairs] at hneed
          omega
        show unpackPairs (f' + 1) (ps'.length + 1)
          ((packVal k ++ packVal v ++ packPairs ps') ++ rest) = _
        rw [List.append_assoc, List.append_assoc, unpackPairs_succ,
          IHval (by omega) k _ hw.1 hn.1, Option.some_bind']
        show (unpackVal f' (packVal v ++ (packPairs ps' ++ rest))).bind
            (fun (v2, r2) =>
              (unpackPairs f' ps'.length r2).bind fun (ps2, r3) =>
                some ((k, v2) :: ps2, r3)) = some ((k, v) :: ps', rest)
        rw [IHval (by omega) v _ hw.2.1 hn.2.1, Option.some_bind']
        show (unpackPairs f' ps'.length (packPairs ps' ++ rest)).bind
            (fun (ps2, r3) => some ((k, v) :: ps2, r3)) = some ((k, v) :: ps', rest)
        rw [IHpairs (by omega) ps' rest hw.2.2 hn.2.2, Option.some_bind']

mutual

/-- Structural size of a value (used only as an induction measure). -/
def szV : MVal → Nat
  | .nil => 1
  | .int _ => 1
  | .float _ => 1
  | .str _ => 1
  | .bin _ => 1
  | .bool _ => 1
  | .list xs => szSeq xs + 1
  | .map ps => szPairs ps + 1

def szSeq : List MVal → Nat
  | [] => 0
  | x :: xs => szV x + szSeq xs + 1

def szPairs : List (MVal × MVal) → Nat
  | [] => 0
  | (k, v) :: ps => szV k + szV v + szPairs ps + 1

end

theorem one_le_length_packVal (v : MVal) : 1 ≤ (packVal v).length := by
  cases v with
  | nil => simp [packVal]
  | int n =>
    simp only [packVal, packInt]
    split_ifs <;> simp [length_beBytes]
  | float q => simp [packVal]
  | str s =>
    simp only [packVal, strHeader]
    split_ifs <;> simp [length_beBytes]
  | bin b =>
    simp only [packVal, binHeader]
    split_ifs <;> simp [length_beBytes]
  | bool b => simp [packVal]
  | list xs =>
    simp only [packVal, listHeader]
    split_ifs <;> simp [length_beBytes]
  | map ps =>
    simp only [packVal, mapHeader]
    split_ifs <;> simp [length_beBytes]

theorem one_le_length_header :
    (∀ L, 1 ≤ (strHeader L).length) ∧ (∀ L, 1 ≤ (binHeader L).length) ∧
    (∀ n, 1 ≤ (listHeader n).length) ∧ (∀ n, 1 ≤ (mapHeader n).length) := by
  refine ⟨fun L => ?_, fun L => ?_, fun n => ?_, fun n => ?_⟩ <;>
    first
      | (simp only [strHeader]; split_ifs <;> simp [length_beBytes])
      | (simp only [binHeader]; split_ifs <;> simp [length_beBytes])
      | (simp only [listHeader]; split_ifs <;> simp [length_beBytes])
      | (simp only [mapHeader]; split_ifs <;> simp [length_beBytes])

/-- Fuel bound: `needV v` is at most twice the packed length plus one
(joint statement for values / elements / pairs). -/
theorem need_le_len_aux : ∀ n : Nat,
    (∀ v, szV v ≤ n → needV v ≤ 2 * (packVal v).length + 1) ∧
    (∀ xs, szSeq xs ≤ n → needSeq xs ≤ 2 * (packSeq xs).length + 2) ∧
    (∀ ps, szPairs ps ≤ n → needPairs ps ≤ 2 * (packPairs ps).length + 2) := by
  intro n
  induction n using Nat.strong_induction_on with
  | _ n IH =>
  refine ⟨fun v hsz => ?_, fun xs hsz => ?_, fun ps hsz => ?_⟩
  · cases v with
    | nil => simp [needV]
    | int m => simp [needV]
    | float q => simp [needV]
    | str s => simp [needV]
    | bin b => simp [needV]
    | bool b => simp [needV]
    | list xs =>
      have hn : 1 ≤ n := by
        simp only [szV] at hsz
        omega
      have hxs := (IH (n - 1) (by omega)).2.1 xs (by
        simp only [szV] at hsz
        omega)
      have hhd := one_le_length_header.2.2.1 xs.length
      simp only [needV, packVal, List.length_append]
      omega
    | map ps =>
      have hn : 1 ≤ n := by
        simp only [szV] at hsz
        omega
      have hps := (IH (n - 1) (by omega)).2.2 ps (by
        simp only [szV] at hsz
        omega)
      have hhd := one_le_length_header.2.2.2 ps.length
      simp only [needV, packVal, List.length_append]
      omega
  · match xs with
    | [] => simp [needSeq]
    | x :: xs' =>
      have hn : 1 ≤ n := by
        simp only [szSeq] at hsz
        omega
      have hx := (IH (n - 1) (by omega)).1 x (by
        simp only [szSeq] at hsz
        omega)
      have hxs := (IH (n - 1) (by omega)).2.1 xs' (by
        simp only [szSeq] at hsz
        omega)
      have h1 := one_le_length_packVal x
      simp only [needSeq, packSeq, List.length_append]
      omega
  · match ps with
    | [] => simp [needPairs]
    | (k, v) :: ps' =>
      have hn : 1 ≤ n := by
        simp only [szPairs] at hsz
        omega
      have hk := (IH (n - 1) (by omega)).1 k (by
        simp only [szPairs] at hsz
        omega)
      have hv := (IH (n - 1) (by omega)).1 v (by
        simp only [szPairs] at hsz
        omega)
      have hps := (IH (n - 1) (by omega)).2.2 ps' (by
        simp only [szPairs] at hsz
        omega)
      have h1 := one_le_length_packVal k
      have h2 := one_le_length_packVal v
      simp only [needPairs, packPairs, List.length_append]
      omega

/-- Packing followed by unpacking is the identity on well-formed values:
the byte-level round trip of `msgpack.packb` / `msgpack.unpackb`. -/
theorem unpackTop_packVal (v : MVal) (h : wfV v = true) :
    unpackTop (packVal v) = .ok v := by
  have hb := (need_le_len_aux (szV v)).1 v le_rfl
  have h2 := (unpack_pack_aux (2 * (packVal v).length + 4)).1 v [] h (by omega)
  rw [List.append_nil] at h2
  unfold unpackTop
  rw [h2]

/-! ## Protocol enums (`SignalType`, `ActionType`, `ConsciousnessNetwork`,
`ProtocolFormat`, `Priority`, `PacketType`, `PacketFlags`) -/

inductive SignalType where
  | ALPHA_PEAK | BETA_BURST | THETA_SURGE | DELTA_DIP | GAMMA_SYNC | P300_RESPONSE
  | SUPERPOSITION_COLLAPSE | ENTANGLEMENT_EVENT | DECOHERENCE_DETECTED | QUANTUM_TUNNELING
  | FIELD_RESONANCE | VACUUM_FLUCTUATION | CONSCIOUSNESS_EMERGENCE
  | ATP_DEPLETION | ENERGY_SURGE | METABOLIC_STRESS | RECOVERY_PHASE
deriving DecidableEq

/-- The `IntEnum` wire value of a `SignalType`. -/
def SignalType.toNat : SignalType → Nat
  | .ALPHA_PEAK => 0
  | .BETA_BURST => 1
  | .THETA_SURGE => 2
  | .DELTA_DIP => 3
  | .GAMMA_SYNC => 4
  | .P300_RESPONSE => 5
  | .SUPERPOSITION_COLLAPSE => 16
  | .ENTANGLEMENT_EVENT => 17
  | .DECOHERENCE_DETECTED => 18
  | .QUANTUM_TUNNELING => 19
  | .FIELD_RESONANCE => 32
  | .VACUUM_FLUCTUATION => 33
  | .CONSCIOUSNESS_EMERGENCE => 34
  | .ATP_DEPLETION => 48
  | .ENERGY_SURGE => 49
  | .METABOLIC_STRESS => 50
  | .RECOVERY_PHASE => 51

/-- `SignalType(n)`: `some` on the 17 defined wire values, `none` where the
Python `IntEnum` constructor raises `ValueError`. -/
def SignalType.ofWire (n : Nat) : Option SignalType :=
  if n = 0 then some .ALPHA_PEAK else if n = 1 then some .BETA_BURST
  else if n = 2 then some .THETA_SURGE else if n = 3 then some .DELTA_DIP
  else if n = 4 then some .GAMMA_SYNC else if n = 5 then some .P300_RESPONSE
  else if n = 16 then some .SUPERPOSITION_COLLAPSE
  else if n = 17 then some .ENTANGLEMENT_EVENT
  else if n = 18 then some .DECOHERENCE_DETECTED
  else if n = 19 then some .QUANTUM_TUNNELING
  else if n = 32 then some .FIELD_RESONANCE
  else if n = 33 then some .VACUUM_FLUCTUATION
  else if n = 34 then some .CONSCIOUSNESS_EMERGENCE
  else if n = 48 then some .ATP_DEPLETION else if n = 49 then some .ENERGY_SURGE
  else if n = 50 then some .METABOLIC_STRESS else if n = 51 then some .RECOVERY_PHASE
  else none

/-- `SignalType[name]` (member-name lookup on the already upper-cased name;
`none` where Python raises `KeyError`). -/
def SignalType.ofName (s : List Nat) : Option SignalType :=
  if s = strB ("ALPHA_PEAK") then some .ALPHA_PEAK
  else if s = strB ("BETA_BURST") then some .BETA_BURST
  else if s = strB ("THETA_SURGE") then some .THETA_SURGE
  else if s = strB ("DELTA_DIP") then some .DELTA_DIP
  else if s = strB ("GAMMA_SYNC") then some .GAMMA_SYNC
  else if s = strB ("P300_RESPONSE") then some .P300_RESPONSE
  else if s = strB ("SUPERPOSITION_COLLAPSE") then some .SUPERPOSITION_COLLAPSE
  else if s = strB ("ENTANGLEMENT_EVENT") then some .ENTANGLEMENT_EVENT
  else if s = strB ("DECOHERENCE_DETECTED") then some .DECOHERENCE_DETECTED
  else if s = strB ("QUANTUM_TUNNELING") then some .QUANTUM_TUNNELING
  else if s = strB ("FIELD_RESONANCE") then some .FIELD_RESONANCE
  else if s = strB ("VACUUM_FLUCTUATION") then some .VACUUM_FLUCTUATION
  else if s = strB ("CONSCIOUSNESS_EMERGENCE") then some .CONSCIOUSNESS_EMERGENCE
  else if s = strB ("ATP_DEPLETION") then some .ATP_DEPLETION
  else if s = strB ("ENERGY_SURGE") then some .ENERGY_SURGE
  else if s = strB ("METABOLIC_STRESS") then some .METABOLIC_STRESS
  else if s = strB ("RECOVERY_PHASE") then some .RECOVERY_PHASE
  else none

inductive ActionType where
  | HIGHLIGHT_CLUSTER | GENERATE_NODE | LINK_NODES | EXPAND_NODE | PULSE_FEEDBACK
  | CREATE_SUPERPOSITION | COLLAPSE_STATE | ENTANGLE_NODES | MEASURE_COHERENCE
  | ADJUST_FIELD_STRENGTH | PROPAGATE_RESONANCE | SPAWN_VACUUM_NODE
  | ALLOCATE_ENERGY | TRIGGER_RECOVERY | INDUCE_STRESS | BALANCE_NETWORKS
  | SDC_WORK | MEMRISTOR_UPDATE | QUANTUM_GATE
deriving DecidableEq

/-- The `IntEnum` wire value of an `ActionType`. -/
def ActionType.toNat : ActionType → Nat
  | .HIGHLIGHT_CLUSTER => 0
  | .GENERATE_NODE => 1
  | .LINK_NODES => 2
  | .EXPAND_NODE => 3
  | .PULSE_FEEDBACK => 4
  | .CREATE_SUPERPOSITION => 16
  | .COLLAPSE_STATE => 17
  | .ENTANGLE_NODES => 18
  | .MEASURE_COHERENCE => 19
  | .ADJUST_FIELD_STRENGTH => 32
  | .PROPAGATE_RESONANCE => 33
  | .SPAWN_VACUUM_NODE => 34
  | .ALLOCATE_ENERGY => 48
  | .TRIGGER_RECOVERY => 49
  | .INDUCE_STRESS => 50
  | .BALANCE_NETWORKS => 51
  | .SDC_WORK => 64
  | .MEMRISTOR_UPDATE => 65
  | .QUANTUM_GATE => 66

/-- `ActionType(n)` (`none` where Python raises `ValueError`). -/
def ActionType.ofWire (n : Nat) : Option ActionType :=
  if n = 0 then some .HIGHLIGHT_CLUSTER else if n = 1 then some .GENERATE_NODE
  else if n = 2 then some .LINK_NODES else if n = 3 then some .EXPAND_NODE
  else if n = 4 then some .PULSE_FEEDBACK
  else if n = 16 then some .CREATE_SUPERPOSITION
  else if n = 17 then some .COLLAPSE_STATE
  else if n = 18 then some .ENTANGLE_NODES
  else if n = 19 then some .MEASURE_COHERENCE
  else if n = 32 then some .ADJUST_FIELD_STRENGTH
  else if n = 33 then some .PROPAGATE_RESONANCE
  else if n = 34 then some .SPAWN_VACUUM_NODE
  else if n = 48 then some .ALLOCATE_ENERGY
  else if n = 49 then some .TRIGGER_RECOVERY
  else if n = 50 then some .INDUCE_STRESS
  else if n = 51 then some .BALANCE_NETWORKS
  else if n = 64 then some .SDC_WORK
  else if n = 65 then some .MEMRISTOR_UPDATE
  else if n = 66 then some .QUANTUM_GATE
  else none

/-- `ActionType[name]` member-name lookup. -/
def ActionType.ofName (s : List Nat) : Option ActionType :=
  if s = strB ("HIGHLIGHT_CLUSTER") then some .HIGHLIGHT_CLUSTER
  else if s = strB ("GENERATE_NODE") then some .GENERATE_NODE
  else if s = strB ("LINK_NODES") then some .LINK_NODES
  else if s = strB ("EXPAND_NODE") then some .EXPAND_NODE
  else if s = strB ("PULSE_FEEDBACK") then some .PULSE_FEEDBACK
  else if s = strB ("CREATE_SUPERPOSITION") then some .CREATE_SUPERPOSITION
  else if s = strB ("COLLAPSE_STATE") then some .COLLAPSE_STATE
  else if s = strB ("ENTANGLE_NODES") then some .ENTANGLE_NODES
  else if s = strB ("MEASURE_COHERENCE") then some .MEASURE_COHERENCE
  else if s = strB ("ADJUST_FIELD_STRENGTH") then some .ADJUST_FIELD_STRENGTH
  else if s = strB ("PROPAGATE_RESONANCE") then some .PROPAGATE_RESONANCE
  else if s = strB ("SPAWN_VACUUM_NODE") then some .SPAWN_VACUUM_NODE
  else if s = strB ("ALLOCATE_ENERGY") then some .ALLOCATE_ENERGY
  else if s = strB ("TRIGGER_RECOVERY") then some .TRIGGER_RECOVERY
  else if s = strB ("INDUCE_STRESS") then some .INDUCE_STRESS
  else if s = strB ("BALANCE_NETWORKS") then some .BALANCE_NETWORKS
  else if s = strB ("SDC_WORK") then some .SDC_WORK
  else if s = strB ("MEMRISTOR_UPDATE") then some .MEMRISTOR_UPDATE
  else if s = strB ("QUANTUM_GATE") then some .QUANTUM_GATE
  else none

inductive ConsciousnessNetwork where
  | EXECUTIVE | MEMORY | SENSORY | INTEGRATION
deriving DecidableEq

/-- The `IntEnum` wire value of a `ConsciousnessNetwork`. -/
def ConsciousnessNetwork.toNat : ConsciousnessNetwork → Nat
  | .EXECUTIVE => 0
  | .MEMORY => 1
  | .SENSORY => 2
  | .INTEGRATION => 3

/-- `ConsciousnessNetwork(n)`. -/
def ConsciousnessNetwork.ofWire (n : Nat) : Option ConsciousnessNetwork :=
  if n = 0 then some .EXECUTIVE else if n = 1 then some .MEMORY
  else if n = 2 then some .SENSORY else if n = 3 then some .INTEGRATION
  else none

/-- `ConsciousnessNetwork[name]` member-name lookup. -/
def ConsciousnessNetwork.ofName (s : List Nat) : Option ConsciousnessNetwork :=
  if s = strB ("EXECUTIVE") then some .EXECUTIVE
  else if s = strB ("MEMORY") then some .MEMORY
  else if s = strB ("SENSORY") then some .SENSORY
  else if s = strB ("INTEGRATION") then some .INTEGRATION
  else none

inductive ProtocolFormat where
  | JSON | BINARY | MSGPACK | COMPRESSED
deriving DecidableEq

inductive Priority where
  | LOW | NORMAL | HIGH | CRITICAL
deriving DecidableEq

/-- The `IntEnum` wire value of a `Priority`. -/
def Priority.toNat : Priority → Nat
  | .LOW => 1
  | .NORMAL => 5
  | .HIGH => 8
  | .CRITICAL => 10

/-- `Priority(n)` (`none` where Python raises `ValueError`). -/
def Priority.ofWire (n : Nat) : Option Priority :=
  if n = 1 then some .LOW else if n = 5 then some .NORMAL
  else if n = 8 then some .HIGH else if n = 10 then some .CRITICAL
  else none

namespace PacketType

def SINGLE_EVENT : Nat := 0
def BATCH_EVENTS : Nat := 1
def HEARTBEAT : Nat := 2
def ACK : Nat := 3
def ERROR : Nat := 4
def QUANTUM_STATE : Nat := 5
def CONSCIOUSNESS_METRICS : Nat := 6

end PacketType

namespace PacketFlags

def COMPRESSED : Nat := 0x01
def ENCRYPTED : Nat := 0x02
def PRIORITY : Nat := 0x04
def FRAGMENTED : Nat := 0x08

end PacketFlags

/-- `FBIP_MAGIC_BYTES = b'FBIP'`. -/
def FBIP_MAGIC_BYTES : List Nat := strB ("FBIP")

/-- `FBIP_VERSION = 0x0200`. -/
def FBIP_VERSION : Nat := 0x0200

/-- `MAX_PACKET_SIZE = 65536`. -/
def MAX_PACKET_SIZE : Nat := 65536

/-- `COMPRESSION_THRESHOLD = 512`. -/
def COMPRESSION_THRESHOLD : Nat := 512

/-! ## Errors

A raised Python exception is modelled by one of these typed errors. -/

inductive PErr where
  | valueError (msg : List Nat)
  | keyError (k : List Nat)
  | typeError
  | unknownEnum
  | jsonTypeError
  | msgpackError (msg : List Nat)
deriving DecidableEq

/-! ## Dictionary access and dynamic-type coercions

Python stores whatever it finds in the (untyped) dataclass fields; the
typed embedding checks the msgpack-level type when a value is consumed.
`mGet pairs k` is `d.get(k)`, `getReq` is `d[k]` (raising `KeyError`). -/

def mGet (pairs : List (MVal × MVal)) (k : List Nat) : Option MVal :=
  (pairs.find? fun p =>
    match p.1 with
    | .str s => decide (s = k)
    | _ => false).map (·.2)

def getReq (pairs : List (MVal × MVal)) (k : List Nat) : Except PErr MVal :=
  match mGet pairs k with
  | some v => .ok v
  | none => .error (.keyError k)

def asMapE : MVal → Except PErr (List (MVal × MVal))
  | .map ps => .ok ps
  | _ => .error .typeError

def asStrE : MVal → Except PErr (List Nat)
  | .str s => .ok s
  | _ => .error .typeError

def asBinE : MVal → Except PErr (List Nat)
  | .bin b => .ok b
  | _ => .error .typeError

/-- A Python number (int or float) as a rational. -/
def asNumE : MVal → Except PErr ℚ
  | .float q => .ok q
  | .int n => .ok (mkRat n 1)
  | _ => .error .typeError

def asIntE : MVal → Except PErr Nat
  | .int n => .ok n
  | _ => .error .typeError

def asBoolE : MVal → Except PErr Bool
  | .bool b => .ok b
  | _ => .error .typeError

def asListE : MVal → Except PErr (List MVal)
  | .list xs => .ok xs
  | _ => .error .typeError

def asStrListE (v : MVal) : Except PErr (List (List Nat)) := do
  let xs ← asListE v
  xs.mapM asStrE

def asNatListE (v : MVal) : Except PErr (List Nat) := do
  let xs ← asListE v
  xs.mapM asIntE

/-- A map with string keys and arbitrary values. -/
def asStrMapE (v : MVal) : Except PErr (List (List Nat × MVal)) := do
  let ps ← asMapE v
  ps.mapM fun p => do
    let k ← asStrE p.1
    pure (k, p.2)

/-- A map with int keys and numeric values (`network_allocation`). -/
def asNatNumMapE (v : MVal) : Except PErr (List (Nat × ℚ)) := do
  let ps ← asMapE v
  ps.mapM fun p => do
    let k ← asIntE p.1
    let q ← asNumE p.2
    pure (k, q)

/-! ## Decimal formatting helpers (`str.format`, `json.dumps` number text) -/

/-- Decimal digits of a natural, as ASCII bytes. -/
def natDecBytes (n : Nat) : List Nat := (Nat.toDigits 10 n).map Char.toNat

/-- `f"{n:08x}"`: lower-case hex, zero-padded to eight characters. -/
def hex8 (n : Nat) : List Nat :=
  let ds := (Nat.toDigits 16 n).map Char.toNat
  List.replicate (8 - ds.length) 0x30 ++ ds

/-- `str.upper()` on ASCII bytes. -/
def asciiUpper (s : List Nat) : List Nat :=
  s.map fun b => if 97 ≤ b ∧ b ≤ 122 then b - 32 else b

/-! ## `json.dumps` (success/failure model)

Only two aspects of `json.dumps` are consumed by the protocol code: it
raises `TypeError` on `bytes` values, and the *length* of its output feeds
the `original_size` estimate (whose value no observable behaviour depends
on).  Number text is rendered as the exact finite decimal of the (dyadic)
float rather than CPython's shortest-roundtrip repr, and string escaping
is not applied; both only perturb the unobserved length. -/

/-- Decimal text of a float value (exact for dyadic rationals, i.e. all
IEEE-754 values). -/
def jsonNumBytes (q : ℚ) : List Nat :=
  let sign : List Nat := if q.num < 0 then [0x2d] else []
  let a := natLog2 q.den
  if q.den = 2 ^ a then
    let digits := q.num.natAbs * 5 ^ a
    if a = 0 then sign ++ natDecBytes digits ++ strB (".0")
    else
      let ipart := digits / 10 ^ a
      let fpart := digits % 10 ^ a
      let fb := natDecBytes fpart
      sign ++ natDecBytes ipart ++ [0x2e] ++ (List.replicate (a - fb.length) 0x30 ++ fb)
  else sign ++ natDecBytes q.num.natAbs

mutual

/-- `json.dumps` with compact separators; errors (`TypeError`) on `bytes`. -/
def jsonVal : MVal → Except PErr (List Nat)
  | .nil => .ok (strB ("null"))
  | .int n => .ok (natDecBytes n)
  | .float q => .ok (jsonNumBytes q)
  | .str s => .ok (0x22 :: s ++ [0x22])
  | .bin _ => .error .jsonTypeError
  | .bool b => .ok (if b then strB ("true") else strB ("false"))
  | .list xs => (jsonSeq xs).map fun body => 0x5b :: body ++ [0x5d]
  | .map ps => (jsonPairs ps).map fun body => 0x7b :: body ++ [0x7d]

def jsonSeq : List MVal → Except PErr (List Nat)
  | [] => .ok []
  | [x] => jsonVal x
  | x :: y :: xs => do
    let bx ← jsonVal x
    let brest ← jsonSeq (y :: xs)
    pure (bx ++ [0x2c] ++ brest)

def jsonPairs : List (MVal × MVal) → Except PErr (List Nat)
  | [] => .ok []
  | [(k, v)] => do
    let bk ← jsonKey k
    let bv ← jsonVal v
    pure (bk ++ [0x3a] ++ bv)
  | (k, v) :: p :: ps => do
    let bk ← jsonKey k
    let bv ← jsonVal v
    let brest ← jsonPairs (p :: ps)
    pure (bk ++ [0x3a] ++ bv ++ [0x2c] ++ brest)

/-- JSON object keys: strings stay strings, int keys are quoted (as
`json.dumps` does for the int-keyed `network_allocation`). -/
def jsonKey : MVal → Except PErr (List Nat)
  | .str s => .ok (0x22 :: s ++ [0x22])
  | .int n => .ok (0x22 :: natDecBytes n ++ [0x22])
  | _ => .error .jsonTypeError

end

/-! ## `json.loads` (structural parser, for format detection and the
Plain-Text decode path)

Recursive-descent parser over bytes.  Escape sequences are kept raw and
exponent-form number literals are not accepted; the protocol's own
Plain-Text output contains neither. -/

/-- Skip JSON whitespace. -/
def jsonWs (s : List Nat) : List Nat :=
  s.dropWhile fun b => b = 0x20 || b = 0x09 || b = 0x0a || b = 0x0d

/-- Parse a JSON string body after the opening quote. -/
def jsonParseStr : List Nat → Option (List Nat × List Nat)
  | [] => none
  | c :: r =>
    if c = 0x22 then some ([], r)
    else if c = 0x5c then
      match r with
      | e :: r2 => (jsonParseStr r2).map fun (s, r3) => (0x5c :: e :: s, r3)
      | [] => none
    else (jsonParseStr r).map fun (s, r2) => (c :: s, r2)

/-- Characters that may appear in the accepted number literals. -/
def jsonNumChar (b : Nat) : Bool :=
  (0x30 ≤ b && b ≤ 0x39) || b = 0x2d || b = 0x2e

/-- Digit-run value; `none` when empty or non-digit. -/
def digitsVal (ds : List Nat) : Option Nat :=
  if ds.isEmpty then none
  else if ds.all (fun b => 0x30 ≤ b && b ≤ 0x39) then
    some (ds.foldl (fun acc b => acc * 10 + (b - 0x30)) 0)
  else none

/-- Value of a number token (negative values and fractions become
`.float`; nonnegative integers become `.int`). -/
def jsonNumVal (tok : List Nat) : Option MVal :=
  let (neg, t1) := match tok with
    | 0x2d :: r => (true, r)
    | _ => (false, tok)
  let ip := t1.takeWhile fun b => 0x30 ≤ b && b ≤ 0x39
  let after := t1.drop ip.length
  match after with
  | [] => (digitsVal ip).map fun n => if neg then .float (mkRat (-(Int.ofNat n)) 1) else .int n
  | 0x2e :: fr =>
    match digitsVal ip, digitsVal fr with
    | some i, some f =>
      if fr.isEmpty then none
      else
        let d : Nat := 10 ^ fr.length
        let n : Int := (i : Int) * d + f
        some (.float (mkRat (if neg then -n else n) d))
    | _, _ => none
  | _ => none

/-- Parse a JSON number token. -/
def jsonParseNum (s : List Nat) : Option (MVal × List Nat) :=
  let tok := s.takeWhile jsonNumChar
  let rest := s.dropWhile jsonNumChar
  if tok.isEmpty then none else (jsonNumVal tok).map fun v => (v, rest)

mutual

/-- Parse one JSON value (fuel-bounded recursive descent). -/
def jsonParseV : Nat → List Nat → Option (MVal × List Nat)
  | 0, _ => none
  | f+1, s =>
    match jsonWs s with
    | [] => none
    | c :: r =>
      if c = 0x7b then
        match jsonWs r with
        | 0x7d :: r2 => some (.map [], r2)
        | r2 => (jsonParseMembers f r2).map fun (ps, r3) => (.map ps, r3)
      else if c = 0x5b then
        match jsonWs r with
        | 0x5d :: r2 => some (.list [], r2)
        | r2 => (jsonParseElems f r2).map fun (xs, r3) => (.list xs, r3)
      else if c = 0x22 then (jsonParseStr r).map fun (sb, r2) => (.str sb, r2)
      else if c = 0x74 then
        if r.take 3 = strB ("rue") then some (.bool true, r.drop 3) else none
      else if c = 0x66 then
        if r.take 4 = strB ("alse") then some (.bool false, r.drop 4) else none
      else if c = 0x6e then
        if r.take 3 = strB ("ull") then some (.nil, r.drop 3) else none
      else jsonParseNum (c :: r)

/-- Parse the members of a (nonempty) JSON object. -/
def jsonParseMembers : Nat → List Nat → Option (List (MVal × MVal) × List Nat)
  | 0, _ => none
  | f+1, s => do
    let (k, r) ← match jsonWs s with
      | 0x22 :: r0 => (jsonParseStr r0).map fun (sb, r1) => (MVal.str sb, r1)
      | _ => none
    match jsonWs r with
    | 0x3a :: r3 => do
      let (v, r4) ← jsonParseV f r3
      match jsonWs r4 with
      | 0x2c :: r5 => (jsonParseMembers f r5).map fun (ps, r6) => ((k, v) :: ps, r6)
      | 0x7d :: r5 => some ([(k, v)], r5)
      | _ => none
    | _ => none

/-- Parse the elements of a (nonempty) JSON array. -/
def jsonParseElems : Nat → List Nat → Option (List MVal × List Nat)
  | 0, _ => none
  | f+1, s => do
    let (v, r) ← jsonParseV f s
    match jsonWs r with
    | 0x2c :: r2 => (jsonParseElems f r2).map fun (xs, r3) => (v :: xs, r3)
    | 0x5d :: r2 => some ([v], r2)
    | _ => none

end

/-- `json.loads(data)`: parse one value consuming all input. -/
def jsonLoads (data : List Nat) : Option MVal :=
  match jsonParseV (data.length + 1) data with
  | some (v, r) => if (jsonWs r).isEmpty then some v else none
  | none => none

/-! ## `zlib.compress` / `zlib.decompress` (stream-level model)

The protocol consumes zlib only through its interface: `compress` yields a
valid zlib stream whose first two bytes are the standard `0x78 0x9c`
header, and `decompress` inverts it.  The model emits DEFLATE *stored*
blocks (a legal zlib encoding) rather than the level-6 Huffman encoding;
no claim depends on the compressed byte values. -/

/-- DEFLATE stored blocks (`BFINAL,BTYPE=00`, LEN/NLEN little-endian). -/
def storedBlocks : Nat → List Nat → List Nat
  | 0, _ => []
  | f+1, data =>
    if data.length ≤ 65535 then
      1 :: (data.length % 256) :: (data.length / 256) ::
        ((65535 - data.length) % 256) :: ((65535 - data.length) / 256) :: data
    else
      0 :: 255 :: 255 :: 0 :: 0 :: (data.take 65535 ++ storedBlocks f (data.drop 65535))

/-- `zlib.compress(data)` modelled at stream level. -/
def zlibCompress (data : List Nat) : List Nat :=
  0x78 :: 0x9c :: (storedBlocks (data.length + 1) data ++ beBytes 4 (adler32 data))

/-- Inverse of `storedBlocks`. -/
def inflateStored : Nat → List Nat → Option (List Nat)
  | 0, _ => none
  | f+1, bf :: l0 :: l1 :: _n0 :: _n1 :: rest =>
    let len := l0 + 256 * l1
    if len ≤ rest.length then
      if bf = 1 then
        if rest.length = len then some rest else none
      else (inflateStored f (rest.drop len)).map fun out => rest.take len ++ out
    else none
  | _+1, _ => none

/-- `zlib.decompress(data)` for streams produced by `zlibCompress`. -/
def zlibDecompress (data : List Nat) : Option (List Nat) :=
  match data with
  | 0x78 :: _fl :: rest =>
    let body := rest.take (rest.length - 4)
    let trailer := rest.drop (rest.length - 4)
    (inflateStored (body.length + 1) body).bind fun out =>
      if beVal trailer = adler32 out then some out else none
  | _ => none

/-! ## Event model -/

/-- Key of a compact map, as an `MVal` string. -/
def kS (s : String) : MVal := .str (strB s)

structure QuantumState where
  amplitudes : List ℚ
  phases : List ℚ
  coherence_time : ℚ
  entanglements : List (List Nat)
  measurement_basis : List Nat
deriving DecidableEq

/-- `QuantumState.to_compact_dict` (float arrays as float32 byte blobs). -/
def QuantumState.to_compact_dict (qs : QuantumState) : MVal :=
  .map [(kS ("a"), .bin (f32blob qs.amplitudes)),
        (kS ("p"), .bin (f32blob qs.phases)),
        (kS ("c"), .float qs.coherence_time),
        (kS ("e"), .list (qs.entanglements.map .str)),
        (kS ("m"), .str qs.measurement_basis)]

structure ConsciousnessMetrics where
  consciousness_level : ℚ
  energy_cost : ℚ
  network_allocation : List (Nat × ℚ)
  field_coherence : ℚ
  metabolic_state : List Nat
deriving DecidableEq

/-- `ConsciousnessMetrics.to_compact_dict`. -/
def ConsciousnessMetrics.to_compact_dict (cm : ConsciousnessMetrics) : MVal :=
  .map [(kS ("cl"), .float (roundDec 3 cm.consciousness_level)),
        (kS ("ec"), .float (roundDec 2 cm.energy_cost)),
        (kS ("na"), .map (cm.network_allocation.map fun p =>
          (.int p.1, .float (roundDec 3 p.2)))),
        (kS ("fc"), .float (roundDec 3 cm.field_coherence)),
        (kS ("ms"), .str cm.metabolic_state)]

structure OptimizedFBIPEvent where
  event_id : List Nat
  timestamp : ℚ
  version : Nat
  signal_type : SignalType
  intensity : ℚ
  duration_ms : Nat
  frequency_hz : Option ℚ
  quantum_state : Option QuantumState
  superposition_count : Nat
  entanglement_strength : ℚ
  consciousness_metrics : Option ConsciousnessMetrics
  action_type : ActionType
  target_network : ConsciousnessNetwork
  target_nodes : List (List Nat)
  action_parameters : List (List Nat × MVal)
  sdc_chip_targets : Option (List Nat)
  memristor_pattern : Option (List ℚ)
  user_context : Option (List (List Nat × MVal))
  session_context : Option (List (List Nat × MVal))
  priority : Priority
  requires_confirmation : Bool
  energy_budget : ℚ

/-- Keys of `user_context` kept by `to_compact_dict`. -/
def ucAllowKeys : List (List Nat) :=
  [strB ("user_id"), strB ("session_id"), strB ("priority")]

/-- The `"f"` entry of the compact dict (present iff `frequency_hz` is set). -/
def freqPair : Option ℚ → List (MVal × MVal)
  | some f => [(kS ("f"), .float (roundDec 1 f))]
  | none => []

/-- The `"qs"` entry of the compact dict. -/
def qsPair : Option QuantumState → List (MVal × MVal)
  | some qs => [(kS ("qs"), qs.to_compact_dict)]
  | none => []

/-- The `"sc"` entry of the compact dict (present iff the count is positive). -/
def scPair (n : Nat) : List (MVal × MVal) :=
  if n > 0 then [(kS ("sc"), .int n)] else []

/-- The `"es"` entry of the compact dict (present iff the strength is positive). -/
def esPair (q : ℚ) : List (MVal × MVal) :=
  if q > 0 then [(kS ("es"), .float (roundDec 3 q))] else []

/-- The `"cm"` entry of the compact dict. -/
def cmPair : Option ConsciousnessMetrics → List (MVal × MVal)
  | some cm => [(kS ("cm"), cm.to_compact_dict)]
  | none => []

/-- The `"sdc"` entry of the compact dict (dropped when the list is empty). -/
def sdcPair : Option (List Nat) → List (MVal × MVal)
  | some l => if l ≠ [] then [(kS ("sdc"), .list (l.map .int))] else []
  | none => []

/-- The `"mp"` entry of the compact dict. -/
def mpPair : Option (List ℚ) → List (MVal × MVal)
  | some mp => [(kS ("mp"), .bin (f32blob mp))]
  | none => []

/-- The `"rc"` entry of the compact dict (present iff confirmation required). -/
def rcPair (b : Bool) : List (MVal × MVal) :=
  if b then [(kS ("rc"), .bool true)] else []

/-- The `"uc"` entry of the compact dict (sanitized, dropped when empty). -/
def ucPair : Option (List (List Nat × MVal)) → List (MVal × MVal)
  | some uc =>
    if uc.isEmpty then []
    else
      let ess := uc.filter fun p => p.1 ∈ ucAllowKeys
      if ess.isEmpty then []
      else [(kS ("uc"), .map (ess.map fun p => (.str p.1, p.2)))]
  | none => []

/-- The 12 mandatory entries of `to_compact_dict`, in insertion order. -/
def OptimizedFBIPEvent.mandatory_pairs (e : OptimizedFBIPEvent) :
    List (MVal × MVal) :=
  [(kS ("id"), .str e.event_id),
   (kS ("ts"), .float e.timestamp),
   (kS ("v"), .int e.version),
   (kS ("st"), .int e.signal_type.toNat),
   (kS ("i"), .float (roundDec 3 e.intensity)),
   (kS ("d"), .int e.duration_ms),
   (kS ("at"), .int e.action_type.toNat),
   (kS ("tn"), .int e.target_network.toNat),
   (kS ("nodes"), .list (e.target_nodes.map .str)),
   (kS ("params"), .map (e.action_parameters.map fun p => (.str p.1, p.2))),
   (kS ("p"), .int e.priority.toNat),
   (kS ("eb"), .float (roundDec 2 e.energy_budget))]

/-- The entries of `OptimizedFBIPEvent.to_compact_dict`, in the insertion
order of the Python dict (12 mandatory keys, then the conditionally added
optional ones). -/
def OptimizedFBIPEvent.to_compact_pairs (e : OptimizedFBIPEvent) : List (MVal × MVal) :=
  e.mandatory_pairs
  ++ freqPair e.frequency_hz
  ++ qsPair e.quantum_state
  ++ scPair e.superposition_count
  ++ esPair e.entanglement_strength
  ++ cmPair e.consciousness_metrics
  ++ sdcPair e.sdc_chip_targets
  ++ mpPair e.memristor_pattern
  ++ rcPair e.requires_confirmation
  ++ ucPair e.user_context

/-- `OptimizedFBIPEvent.to_compact_dict`. -/
def OptimizedFBIPEvent.to_compact_dict (e : OptimizedFBIPEvent) : MVal :=
  .map e.to_compact_pairs

/-! ## Packet framer (`PacketHeader`) -/

structure PacketHeader where
  packet_type : Nat
  flags : Nat
  data_length : Nat
  checksum : Nat
deriving DecidableEq

/-- `PacketHeader.HEADER_SIZE = 16`. -/
def PacketHeader.HEADER_SIZE : Nat := 16

/-- `struct.pack("!4sHBBII", magic, version, type, flags, length, checksum)`. -/
def PacketHeader.pack (h : PacketHeader) : List Nat :=
  FBIP_MAGIC_BYTES ++ beBytes 2 FBIP_VERSION ++ [h.packet_type, h.flags] ++
    beBytes 4 h.data_length ++ beBytes 4 h.checksum

/-- `PacketHeader.unpack`: validates length and magic; the version field is
read but (as in the source) not checked. -/
def PacketHeader.unpack (data : List Nat) : Except PErr PacketHeader :=
  if data.length < PacketHeader.HEADER_SIZE then
    .error (.valueError (strB ("Insufficient data for header")))
  else if data.take 4 ≠ FBIP_MAGIC_BYTES then
    .error (.valueError (strB ("Invalid FBIP magic bytes")))
  else
    .ok { packet_type := (data.drop 6).headD 0,
          flags := (data.drop 7).headD 0,
          data_length := beVal ((data.drop 8).take 4),
          checksum := beVal ((data.drop 12).take 4) }

/-! ## Codecs and the protocol facade (`FBIPProtocolV3`) -/

structure PerformanceStats where
  serialization_times : List ℚ
  deserialization_times : List ℚ
  compression_ratios : List ℚ
  packet_sizes : List Nat
  error_count : Nat
  total_packets : Nat

/-- The all-empty statistics of `PerformanceStats.__init__`. -/
def PerformanceStats.init : PerformanceStats :=
  { serialization_times := [], deserialization_times := [],
    compression_ratios := [], packet_sizes := [], error_count := 0,
    total_packets := 0 }

/-- `deque(maxlen=1000).append`: bounded push, oldest evicted. -/
def dequePush {α : Type} (xs : List α) (x : α) : List α :=
  if xs.length < 1000 then xs ++ [x] else xs.tail ++ [x]

/-- `PerformanceStats.record_serialization` (the `format_type` argument of
the source is unused there and omitted here). -/
def PerformanceStats.record_serialization (st : PerformanceStats) (time_ms : ℚ)
    (original_size final_size : Nat) : PerformanceStats :=
  let st1 := { st with
    serialization_times := dequePush st.serialization_times time_ms,
    packet_sizes := dequePush st.packet_sizes final_size }
  let st2 :=
    if original_size > 0 then
      { st1 with compression_ratios :=
          dequePush st1.compression_ratios (mkRat final_size original_size) }
    else st1
  { st2 with total_packets := st2.total_packets + 1 }

/-- `PerformanceStats.record_error`. -/
def PerformanceStats.record_error (st : PerformanceStats) : PerformanceStats :=
  { st with error_count := st.error_count + 1 }

/-- The mutable state of one `FBIPProtocolV3` instance (session identity,
configuration, sequence counter, statistics).  Wall-clock readings, the
uuid session id and numpy random draws are supplied as oracle arguments to
the methods that consume them. -/
structure FBIPProtocolV3 where
  session_id : List Nat
  default_format : ProtocolFormat
  enable_compression : Bool
  compression_threshold : Nat
  sequence_number : Nat
  stats : PerformanceStats

/-- `FBIPProtocolV3.__init__` (fields the claims observe). -/
def FBIPProtocolV3.init (session_id : List Nat) (default_format : ProtocolFormat) :
    FBIPProtocolV3 :=
  { session_id, default_format, enable_compression := true,
    compression_threshold := COMPRESSION_THRESHOLD, sequence_number := 0,
    stats := PerformanceStats.init }

/-- `FBIPProtocolV3._serialize_json`. -/
def FBIPProtocolV3.serialize_json (event : OptimizedFBIPEvent) : Except PErr (List Nat) :=
  jsonVal (.map [(kS ("protocol_version"), .str (strB ("FBIP_v3.0"))),
                 (kS ("format"), kS ("json")),
                 (kS ("event"), event.to_compact_dict)])

/-- `FBIPProtocolV3._create_binary_packet` on a bytes payload (the dict
variant, used only by the unmodelled batch path, first msgpack-packs). -/
def FBIPProtocolV3.create_binary_packet (packet_type : Nat) (data_bytes : List Nat) :
    List Nat :=
  PacketHeader.pack
    { packet_type, flags := 0, data_length := data_bytes.length,
      checksum := crc32 data_bytes } ++ data_bytes

/-- `FBIPProtocolV3._serialize_binary`. -/
def FBIPProtocolV3.serialize_binary (event : OptimizedFBIPEvent) : List Nat :=
  FBIPProtocolV3.create_binary_packet PacketType.SINGLE_EVENT
    (packVal event.to_compact_dict)

/-- `FBIPProtocolV3._serialize_msgpack`. -/
def FBIPProtocolV3.serialize_msgpack (event : OptimizedFBIPEvent) : List Nat :=
  packVal event.to_compact_dict

/-- `FBIPProtocolV3._serialize_compressed`: compress and frame only above
the threshold, otherwise return the raw msgpack bytes unframed. -/
def FBIPProtocolV3.serialize_compressed (threshold : Nat) (event : OptimizedFBIPEvent) :
    List Nat :=
  let binary_data := FBIPProtocolV3.serialize_msgpack event
  if binary_data.length > threshold then
    let compressed_data := zlibCompress binary_data
    PacketHeader.pack
      { packet_type := PacketType.SINGLE_EVENT, flags := PacketFlags.COMPRESSED,
        data_length := compressed_data.length, checksum := crc32 compressed_data } ++
      compressed_data
  else binary_data

/-- `FBIPProtocolV3._detect_format`: magic ⇒ BINARY; `{...}` that parses as
JSON ⇒ JSON; zlib magic ⇒ COMPRESSED; otherwise MSGPACK. -/
def FBIPProtocolV3.detect_format (data : List Nat) : Except PErr ProtocolFormat :=
  if data.length < 4 then
    .error (.valueError (strB ("Data too short for format detection")))
  else if data.take 4 = FBIP_MAGIC_BYTES then .ok .BINARY
  else if decide (data.take 1 = [0x7b]) &&
      (decide (data.getLast? = some 0x7d) && (jsonLoads data).isSome) then .ok .JSON
  else if data.take 2 = [0x78, 0x9c] ∨ data.take 2 = [0x78, 0x01] then .ok .COMPRESSED
  else .ok .MSGPACK

/-- Decode an optional entry of a compact map: apply `f` when the key is
present, fall back to the default value of `d.get(key, default)` when it
is absent. -/
def optDecode {α : Type} (o : Option MVal) (f : MVal → Except PErr α) (dflt : α) :
    Except PErr α :=
  match o with
  | some v => f v
  | none => pure dflt

/-- The `IntEnum` constructor call: `some` wire values convert, others
raise `ValueError`. -/
def enumOfWireE {α : Type} (f : Nat → Option α) (n : Nat) : Except PErr α :=
  match f n with
  | some a => pure a
  | none => throw PErr.unknownEnum

/-- `QuantumState.from_compact_dict`. -/
def QuantumState.from_compact_dict (d : MVal) : Except PErr QuantumState := do
  let qp ← asMapE d
  let a ← getReq qp (strB ("a")) >>= asBinE
  let p ← getReq qp (strB ("p")) >>= asBinE
  let c ← getReq qp (strB ("c")) >>= asNumE
  let ents ← getReq qp (strB ("e")) >>= asStrListE
  let m ← getReq qp (strB ("m")) >>= asStrE
  pure { amplitudes := f32unblob a, phases := f32unblob p,
         coherence_time := c, entanglements := ents,
         measurement_basis := m }

/-- The inline `ConsciousnessMetrics(...)` reconstruction of the source. -/
def ConsciousnessMetrics.from_compact_dict (d : MVal) : Except PErr ConsciousnessMetrics := do
  let cp ← asMapE d
  let cl ← getReq cp (strB ("cl")) >>= asNumE
  let ec ← getReq cp (strB ("ec")) >>= asNumE
  let na ← getReq cp (strB ("na")) >>= asNatNumMapE
  let fc ← getReq cp (strB ("fc")) >>= asNumE
  let ms ← getReq cp (strB ("ms")) >>= asStrE
  pure { consciousness_level := cl, energy_cost := ec,
         network_allocation := na, field_coherence := fc,
         metabolic_state := ms }

/-- `FBIPProtocolV3._reconstruct_event_from_dict`.  The receiving instance
substitutes its own session context; unknown enum wire values are
errors (the Python `IntEnum` constructors raise `ValueError`). -/
def FBIPProtocolV3.reconstruct_event_from_dict (session_id : List Nat) (d : MVal) :
    Except PErr OptimizedFBIPEvent := do
  let pairs ← asMapE d
  let quantum_state ← optDecode (mGet pairs (strB ("qs")))
    (fun qv => (QuantumState.from_compact_dict qv).map some) none
  let consciousness_metrics ← optDecode (mGet pairs (strB ("cm")))
    (fun cv => (ConsciousnessMetrics.from_compact_dict cv).map some) none
  let memristor_pattern ← optDecode (mGet pairs (strB ("mp")))
    (fun mv => (asBinE mv).map fun b => some (f32unblob b)) none
  let event_id ← getReq pairs (strB ("id")) >>= asStrE
  let timestamp ← getReq pairs (strB ("ts")) >>= asNumE
  let version ← optDecode (mGet pairs (strB ("v"))) asIntE FBIP_VERSION
  let stN ← getReq pairs (strB ("st")) >>= asIntE
  let signal_type ← enumOfWireE SignalType.ofWire stN
  let intensity ← getReq pairs (strB ("i")) >>= asNumE
  let duration_ms ← getReq pairs (strB ("d")) >>= asIntE
  let frequency_hz ← optDecode (mGet pairs (strB ("f")))
    (fun fv => (asNumE fv).map some) none
  let superposition_count ← optDecode (mGet pairs (strB ("sc"))) asIntE 0
  let entanglement_strength ← optDecode (mGet pairs (strB ("es"))) asNumE (mkRat 0 1)
  let atN ← getReq pairs (strB ("at")) >>= asIntE
  let action_type ← enumOfWireE ActionType.ofWire atN
  let tnN ← getReq pairs (strB ("tn")) >>= asIntE
  let target_network ← enumOfWireE ConsciousnessNetwork.ofWire tnN
  let target_nodes ← getReq pairs (strB ("nodes")) >>= asStrListE
  let action_parameters ← getReq pairs (strB ("params")) >>= asStrMapE
  let sdc_chip_targets ← optDecode (mGet pairs (strB ("sdc")))
    (fun sv => (asNatListE sv).map some) none
  let user_context ← optDecode (mGet pairs (strB ("uc")))
    (fun uv => (asStrMapE uv).map some) none
  let pN ← getReq pairs (strB ("p")) >>= asIntE
  let priority ← enumOfWireE Priority.ofWire pN
  let requires_confirmation ← optDecode (mGet pairs (strB ("rc"))) asBoolE false
  let energy_budget ← getReq pairs (strB ("eb")) >>= asNumE
  pure { event_id, timestamp, version, signal_type, intensity, duration_ms,
         frequency_hz, quantum_state, superposition_count, entanglement_strength,
         consciousness_metrics, action_type, target_network, target_nodes,
         action_parameters, sdc_chip_targets, memristor_pattern, user_context,
         session_context := some [(strB ("session_id"), .str session_id)],
         priority, requires_confirmation, energy_budget }

/-- `FBIPProtocolV3._deserialize_json`. -/
def FBIPProtocolV3.deserialize_json (session_id : List Nat) (data : List Nat) :
    Except PErr OptimizedFBIPEvent := do
  let j ← match jsonLoads data with
    | some v => pure v
    | none => throw (PErr.valueError (strB ("json decode error")))
  let pairs ← asMapE j
  let ev ← getReq pairs (strB ("event"))
  FBIPProtocolV3.reconstruct_event_from_dict session_id ev

/-- `FBIPProtocolV3._deserialize_binary`: parse header, recompute the
CRC-32 over the received payload, fail on mismatch, unpack, reconstruct. -/
def FBIPProtocolV3.deserialize_binary (session_id : List Nat) (data : List Nat) :
    Except PErr OptimizedFBIPEvent := do
  let header ← PacketHeader.unpack data
  let payload_data := data.drop PacketHeader.HEADER_SIZE
  if crc32 payload_data ≠ header.checksum then
    throw (PErr.valueError (strB ("Packet checksum mismatch")))
  else do
    let event_data ← (unpackTop payload_data).mapError PErr.msgpackError
    FBIPProtocolV3.reconstruct_event_from_dict session_id event_data

/-- `FBIPProtocolV3._deserialize_msgpack`. -/
def FBIPProtocolV3.deserialize_msgpack (session_id : List Nat) (data : List Nat) :
    Except PErr OptimizedFBIPEvent := do
  let event_data ← (unpackTop data).mapError PErr.msgpackError
  FBIPProtocolV3.reconstruct_event_from_dict session_id event_data

/-- `FBIPProtocolV3._deserialize_compressed`. -/
def FBIPProtocolV3.deserialize_compressed (session_id : List Nat) (data : List Nat) :
    Except PErr OptimizedFBIPEvent := do
  let header ← PacketHeader.unpack data
  let compressed_data := data.drop PacketHeader.HEADER_SIZE
  if crc32 compressed_data ≠ header.checksum then
    throw (PErr.valueError (strB ("Compressed packet checksum mismatch")))
  else do
    let decompressed_data ←
      if header.flags % 2 = 1 then
        match zlibDecompress compressed_data with
        | some out => pure out
        | none => throw (PErr.valueError (strB ("zlib decompress error")))
      else pure compressed_data
    let event_data ← (unpackTop decompressed_data).mapError PErr.msgpackError
    FBIPProtocolV3.reconstruct_event_from_dict session_id event_data

/-- `FBIPProtocolV3.serialize_event`: dispatch on the format, then compute
the JSON size estimate and record one statistics sample; any exception
(including a `TypeError` from `json.dumps` on bytes-valued fields) records
one error instead and propagates. -/
def FBIPProtocolV3.serialize_event (p : FBIPProtocolV3) (event : OptimizedFBIPEvent)
    (format_type : Option ProtocolFormat) (elapsed_ms : ℚ) :
    Except PErr (List Nat) × FBIPProtocolV3 :=
  let fmt := format_type.getD p.default_format
  let inner : Except PErr (List Nat) :=
    match fmt with
    | .JSON => FBIPProtocolV3.serialize_json event
    | .BINARY => .ok (FBIPProtocolV3.serialize_binary event)
    | .MSGPACK => .ok (FBIPProtocolV3.serialize_msgpack event)
    | .COMPRESSED => .ok (FBIPProtocolV3.serialize_compressed p.compression_threshold event)
  match inner with
  | .ok data =>
    match (jsonVal event.to_compact_dict).map List.length with
    | .ok original_size =>
      (.ok data,
       { p with stats := p.stats.record_serialization elapsed_ms original_size data.length })
    | .error e => (.error e, { p with stats := p.stats.record_error })
  | .error e => (.error e, { p with stats := p.stats.record_error })

/-- `FBIPProtocolV3.deserialize_event`: detect the format, dispatch; on
success append one deserialization-time sample, on failure record one
error and propagate. -/
def FBIPProtocolV3.deserialize_event (p : FBIPProtocolV3) (data : List Nat)
    (elapsed_ms : ℚ) : Except PErr OptimizedFBIPEvent × FBIPProtocolV3 :=
  let result : Except PErr OptimizedFBIPEvent := do
    let fmt ← FBIPProtocolV3.detect_format data
    match fmt with
    | .JSON => FBIPProtocolV3.deserialize_json p.session_id data
    | .BINARY => FBIPProtocolV3.deserialize_binary p.session_id data
    | .MSGPACK => FBIPProtocolV3.deserialize_msgpack p.session_id data
    | .COMPRESSED => FBIPProtocolV3.deserialize_compressed p.session_id data
  match result with
  | .ok ev =>
    let st :=
      { p.stats with
        deserialization_times := dequePush p.stats.deserialization_times elapsed_ms }
    (.ok ev, { p with stats := st })
  | .error e => (.error e, { p with stats := p.stats.record_error })

/-! ## Event factory (`create_event`)

`signal_data` / `action_spec` / `context` are the semi-structured input
maps, modelled as records of optional typed fields.  `now` is
`time.time()`, `now_ms` is `int(time.time() * 1000)`, and the `rnd*`
arguments are the numpy random draws (already normalized / in float32
precision — the normalization itself involves irrational square roots and
is part of the external randomness). -/

structure SignalData where
  signal : Option (List Nat)
  intensity : Option ℚ
  duration_ms : Option Int
  frequency_hz : Option ℚ
  superposition_count : Option Nat
  entanglement_strength : Option ℚ
  coherence_time : Option ℚ

/-- The empty signal-data map. -/
def SignalData.empty : SignalData :=
  { signal := none, intensity := none, duration_ms := none, frequency_hz := none,
    superposition_count := none, entanglement_strength := none, coherence_time := none }

structure ActionSpec where
  action_type : Option (List Nat)
  target_network : Option (List Nat)
  priority : Option Nat
  target_nodes : Option (List (List Nat))
  parameters : Option (List (List Nat × MVal))
  enable_hardware : Bool
  requires_confirmation : Bool
  energy_budget : Option ℚ

/-- The empty action-spec map. -/
def ActionSpec.empty : ActionSpec :=
  { action_type := none, target_network := none, priority := none,
    target_nodes := none, parameters := none, enable_hardware := false,
    requires_confirmation := false, energy_budget := none }

/-- `FBIPProtocolV3._validate_signal_data`: requires the `signal` key. -/
def FBIPProtocolV3.validate_signal_data (sd : SignalData) : Bool :=
  sd.signal.isSome

/-- `FBIPProtocolV3._is_quantum_signal`. -/
def FBIPProtocolV3.is_quantum_signal : SignalType → Bool
  | .GAMMA_SYNC => true
  | .SUPERPOSITION_COLLAPSE => true
  | .ENTANGLEMENT_EVENT => true
  | .DECOHERENCE_DETECTED => true
  | .QUANTUM_TUNNELING => true
  | .CONSCIOUSNESS_EMERGENCE => true
  | _ => false

/-- `FBIPProtocolV3._create_optimized_quantum_state` (random draws as
oracle inputs). -/
def FBIPProtocolV3.create_optimized_quantum_state (sd : SignalData)
    (rndAmplitudes rndPhases : List ℚ) : QuantumState :=
  let size := min 8 (sd.superposition_count.getD 3)
  { amplitudes := rndAmplitudes.take size, phases := rndPhases.take size,
    coherence_time := sd.coherence_time.getD (mkRat 2 1), entanglements := [],
    measurement_basis := strB ("consciousness") }

/-- `FBIPProtocolV3._create_optimized_consciousness_metrics` (uses the raw,
unclamped input numbers, as the source does). -/
def FBIPProtocolV3.create_optimized_consciousness_metrics (sd : SignalData) :
    ConsciousnessMetrics :=
  let intensity := sd.intensity.getD (mkRat 1 2)
  let consciousness_level := min 1 (intensity * mkRat 12 10)
  let base_cost := intensity * 25
  let duration_factor := mkRat (sd.duration_ms.getD 200) 1000
  { consciousness_level, energy_cost := base_cost * duration_factor,
    network_allocation := [(0, mkRat 1 2), (1, mkRat 3 10), (2, mkRat 1 5)],
    field_coherence := mkRat 4 5, metabolic_state := strB ("healthy") }

/-- `FBIPProtocolV3._create_optimized_hardware_targeting`. -/
def FBIPProtocolV3.create_optimized_hardware_targeting
    (network : ConsciousnessNetwork) (rndPattern : List ℚ) : List Nat × List ℚ :=
  let sdc_targets :=
    match network with
    | .EXECUTIVE => [0, 1]
    | .MEMORY => [2, 3]
    | _ => [0]
  (sdc_targets, rndPattern.take 64)

/-- `FBIPProtocolV3._sanitize_context`. -/
def FBIPProtocolV3.sanitize_context (context : Option (List (List Nat × MVal))) :
    Option (List (List Nat × MVal)) :=
  match context with
  | none => none
  | some c =>
    if c.isEmpty then none
    else
      let sanitized := c.filter fun p =>
        p.1 ∈ [strB ("user_id"), strB ("session_id"), strB ("priority"),
               strB ("emotional_state")]
      if sanitized.isEmpty then none else some sanitized

/-- `FBIPProtocolV3.create_event`: validates (raising on a missing
`signal` key, which also records one error), normalizes enum names with a
default fallback, clamps numeric fields, and increments the sequence
counter by one on success. -/
def FBIPProtocolV3.create_event (p : FBIPProtocolV3) (signal_data : SignalData)
    (action_spec : ActionSpec) (context : Option (List (List Nat × MVal)))
    (now : ℚ) (now_ms : Nat) (rndAmplitudes rndPhases rndPattern : List ℚ) :
    Except PErr OptimizedFBIPEvent × FBIPProtocolV3 :=
  if ¬ FBIPProtocolV3.validate_signal_data signal_data then
    (.error (.valueError (strB ("Invalid signal data"))),
     { p with stats := p.stats.record_error })
  else
    let event_id := strB ("fbip_") ++ hex8 p.sequence_number ++ strB ("_") ++
      natDecBytes (now_ms % 65536)
    let signal_type_str := signal_data.signal.getD (strB ("alpha_peak"))
    let signal_type := (SignalType.ofName (asciiUpper signal_type_str)).getD .ALPHA_PEAK
    let quantum_state :=
      if FBIPProtocolV3.is_quantum_signal signal_type then
        some (FBIPProtocolV3.create_optimized_quantum_state signal_data
          rndAmplitudes rndPhases)
      else none
    let consciousness_metrics :=
      FBIPProtocolV3.create_optimized_consciousness_metrics signal_data
    let action_type :=
      (ActionType.ofName (asciiUpper (action_spec.action_type.getD
        (strB ("highlight_cluster"))))).getD .HIGHLIGHT_CLUSTER
    let target_network :=
      (ConsciousnessNetwork.ofName (asciiUpper (action_spec.target_network.getD
        (strB ("executive"))))).getD .EXECUTIVE
    let priority := (Priority.ofWire (action_spec.priority.getD 5)).getD .NORMAL
    let hw :=
      if action_spec.enable_hardware then
        some (FBIPProtocolV3.create_optimized_hardware_targeting target_network rndPattern)
      else none
    let event : OptimizedFBIPEvent :=
      { event_id, timestamp := now, version := FBIP_VERSION, signal_type,
        intensity := max 0 (min 1 (signal_data.intensity.getD (mkRat 1 2))),
        duration_ms := (max 1 (signal_data.duration_ms.getD 200)).toNat,
        frequency_hz := signal_data.frequency_hz,
        quantum_state,
        superposition_count := signal_data.superposition_count.getD 0,
        entanglement_strength :=
          max 0 (min 1 (signal_data.entanglement_strength.getD (mkRat 0 1))),
        consciousness_metrics := some consciousness_metrics,
        action_type, target_network,
        target_nodes := action_spec.target_nodes.getD [],
        action_parameters := action_spec.parameters.getD [],
        sdc_chip_targets := hw.map (·.1),
        memristor_pattern := hw.map (·.2),
        user_context := FBIPProtocolV3.sanitize_context context,
        session_context := some [(strB ("session_id"), .str p.session_id),
                                 (strB ("sequence"), .int p.sequence_number)],
        priority, requires_confirmation := action_spec.requires_confirmation,
        energy_budget := action_spec.energy_budget.getD (mkRat 0 1) }
    (.ok event, { p with sequence_number := p.sequence_number + 1 })

/-! ## Shared lemmas about the framer and the codecs -/

theorem xorN_lt (k : Nat) : ∀ a b, xorN k a b < 2 ^ k := by
  induction k with
  | zero => intro a b; simp [xorN]
  | succ k ih =>
    intro a b
    have h1 : (a + b) % 2 < 2 := Nat.mod_lt _ (by omega)
    have h2 := ih (a / 2) (b / 2)
    simp only [xorN]
    have hp : 2 ^ (k + 1) = 2 * 2 ^ k := by ring
    omega

theorem crc32_lt (data : List Nat) : crc32 data < 2 ^ 32 :=
  xorN_lt 32 _ _

theorem length_header_pack (h : PacketHeader) : (PacketHeader.pack h).length = 16 := by
  simp [PacketHeader.pack, length_beBytes, FBIP_MAGIC_BYTES, strB]

/-- Reading back the header of a freshly framed packet. -/
theorem unpack_header_pack (h : PacketHeader) (payload : List Nat)
    (hlen : h.data_length < 2 ^ 32) (hcrc : h.checksum < 2 ^ 32) :
    PacketHeader.unpack (PacketHeader.pack h ++ payload) = .ok h := by
  have hlen16 : (PacketHeader.pack h ++ payload).length = 16 + payload.length := by
    simp [List.length_append, length_header_pack]
  unfold PacketHeader.unpack
  rw [if_neg (by simp [hlen16, PacketHeader.HEADER_SIZE])]
  have hshape : PacketHeader.pack h ++ payload =
      70 :: 66 :: 73 :: 80 :: 2 :: 0 :: h.packet_type :: h.flags ::
        (beBytes 4 h.data_length ++ (beBytes 4 h.checksum ++ payload)) := by
    simp [PacketHeader.pack, FBIP_MAGIC_BYTES, strB, FBIP_VERSION, beBytes]
  rw [hshape]
  rw [if_neg (by simp [FBIP_MAGIC_BYTES, strB])]
  have hd8 : (70 :: 66 :: 73 :: 80 :: 2 :: 0 :: h.packet_type :: h.flags ::
      (beBytes 4 h.data_length ++ (beBytes 4 h.checksum ++ payload))).drop 8 =
      beBytes 4 h.data_length ++ (beBytes 4 h.checksum ++ payload) := rfl
  have hd12 : (70 :: 66 :: 73 :: 80 :: 2 :: 0 :: h.packet_type :: h.flags ::
      (beBytes 4 h.data_length ++ (beBytes 4 h.checksum ++ payload))).drop 12 =
      beBytes 4 h.checksum ++ payload := by
    have h12 : (12 : Nat) = 8 + 4 := rfl
    rw [h12, ← List.drop_drop, hd8, List.drop_left' (length_beBytes 4 h.data_length)]
  simp only [hd8, hd12]
  rw [List.take_left' (length_beBytes 4 h.data_length),
    List.take_left' (length_beBytes 4 h.checksum)]
  rw [beVal_beBytes 4 _ (by norm_num; omega), beVal_beBytes 4 _ (by norm_num; omega)]
  rfl

/-- The payload of a freshly framed packet. -/
theorem drop16_header_pack (h : PacketHeader) (payload : List Nat) :
    (PacketHeader.pack h ++ payload).drop 16 = payload :=
  List.drop_left' (length_header_pack h)

theorem except_ok_bind {ε α β : Type} (a : α) (f : α → Except ε β) :
    (Except.ok a >>= f : Except ε β) = f a := rfl

theorem except_bind_ok {ε α β : Type} (e : Except ε α) (f : α → Except ε β) (b : β)
    (h : (e >>= f) = .ok b) : ∃ a, e = .ok a ∧ f a = .ok b := by
  cases e with
  | ok a => exact ⟨a, rfl, h⟩
  | error err =>
    exact absurd h (by simp [Bind.bind, Except.bind])

/-- A small fixed event (no optional payloads) used as a concrete input by
several witnesses and counterexamples. -/
def sampleEvent : OptimizedFBIPEvent :=
  { event_id := strB ("fbip_00000000_0"), timestamp := mkRat 0 1,
    version := FBIP_VERSION, signal_type := .ALPHA_PEAK, intensity := mkRat 1 2,
    duration_ms := 200, frequency_hz := none, quantum_state := none,
    superposition_count := 0, entanglement_strength := mkRat 0 1,
    consciousness_metrics := none, action_type := .HIGHLIGHT_CLUSTER,
    target_network := .EXECUTIVE, target_nodes := [strB ("n1")],
    action_parameters := [], sdc_chip_targets := none, memristor_pattern := none,
    user_context := none, session_context := none, priority := .NORMAL,
    requires_confirmation := false, energy_budget := mkRat 0 1 }

/-! ## Claim C2 -/

/-- Claim C2: for every framed packet, the 32-bit checksum stored in the
header is the CRC-32 of the payload bytes only (post-compression on the
compressed path, never including the 16-byte header), and on decode the
checksum is recomputed over the received payload — any mismatch makes the
decode fail with the checksum-mismatch error and no partial event is
returned. -/
theorem c2_checksum_payload_only :
    (∀ (pt : Nat) (payload : List Nat), payload.length < 2 ^ 32 →
      PacketHeader.unpack (FBIPProtocolV3.create_binary_packet pt payload) =
        .ok { packet_type := pt, flags := 0, data_length := payload.length,
              checksum := crc32 payload } ∧
      (FBIPProtocolV3.create_binary_packet pt payload).drop 16 = payload) ∧
    (∀ (threshold : Nat) (e : OptimizedFBIPEvent),
      (FBIPProtocolV3.serialize_msgpack e).length > threshold →
      (zlibCompress (FBIPProtocolV3.serialize_msgpack e)).length < 2 ^ 32 →
      PacketHeader.unpack (FBIPProtocolV3.serialize_compressed threshold e) =
        .ok { packet_type := PacketType.SINGLE_EVENT,
              flags := PacketFlags.COMPRESSED,
              data_length := (zlibCompress (FBIPProtocolV3.serialize_msgpack e)).length,
              checksum := crc32 (zlibCompress (FBIPProtocolV3.serialize_msgpack e)) } ∧
      (FBIPProtocolV3.serialize_compressed threshold e).drop 16 =
        zlibCompress (FBIPProtocolV3.serialize_msgpack e)) ∧
    (∀ (sid data : List Nat) (h : PacketHeader),
      PacketHeader.unpack data = .ok h →
      crc32 (data.drop 16) ≠ h.checksum →
      FBIPProtocolV3.deserialize_binary sid data =
        .error (.valueError (strB ("Packet checksum mismatch")))) := by
  refine ⟨fun pt payload hlen => ?_, fun threshold e hgt hclen => ?_,
    fun sid data h hup hne => ?_⟩
  · unfold FBIPProtocolV3.create_binary_packet
    exact ⟨unpack_header_pack _ payload hlen (crc32_lt payload),
      drop16_header_pack _ payload⟩
  · unfold FBIPProtocolV3.serialize_compressed
    rw [if_pos hgt]
    exact ⟨unpack_header_pack _ _ hclen (crc32_lt _), drop16_header_pack _ _⟩
  · unfold FBIPProtocolV3.deserialize_binary
    rw [hup, except_ok_bind]
    simp only [PacketHeader.HEADER_SIZE]
    rw [if_pos hne]
    rfl

/-- A deliberately corrupted packet: the valid frame of payload `[1,2,3]`
with the payload replaced by `[1,2,4]`. -/
def c2corruptPacket : List Nat :=
  (FBIPProtocolV3.create_binary_packet 0 [1, 2, 3]).take 16 ++ [1, 2, 4]

theorem c2_checksum_payload_only_witness :
    (([1, 2, 3] : List Nat).length < 2 ^ 32 ∧
      PacketHeader.unpack (FBIPProtocolV3.create_binary_packet 0 [1, 2, 3]) =
        .ok { packet_type := 0, flags := 0, data_length := 3,
              checksum := crc32 [1, 2, 3] }) ∧
    ((FBIPProtocolV3.serialize_msgpack sampleEvent).length > 0 ∧
      (FBIPProtocolV3.serialize_compressed 0 sampleEvent).drop 16 =
        zlibCompress (FBIPProtocolV3.serialize_msgpack sampleEvent)) ∧
    FBIPProtocolV3.deserialize_binary (strB ("s2")) c2corruptPacket =
      .error (.valueError (strB ("Packet checksum mismatch"))) := by
  have h1 := c2_checksum_payload_only.1 0 [1, 2, 3] (by norm_num)
  have h2 := c2_checksum_payload_only.2.1 0 sampleEvent
    (of_decide_eq_true (by with_unfolding_all rfl))
    (of_decide_eq_true (by with_unfolding_all rfl))
  have h3 := c2_checksum_payload_only.2.2 (strB ("s2")) c2corruptPacket
    { packet_type := 0, flags := 0, data_length := 3, checksum := crc32 [1, 2, 3] }
    (by with_unfolding_all rfl)
    (of_decide_eq_true (by with_unfolding_all rfl))
  exact ⟨⟨by norm_num, h1.1⟩,
    ⟨of_decide_eq_true (by with_unfolding_all rfl), h2.2⟩, h3⟩

/-! ## Claim C10 -/

/-- Claim C10: the session context is never transmitted — the compact map
is invariant under changes to `session_context` (no key of the map derives
from it), and every event produced by a successful reconstruction carries
the decoding instance's own `{"session_id": session_id}`, independent of
the decoded bytes. -/
theorem c10_session_context_not_transmitted :
    (∀ (e : OptimizedFBIPEvent) (sc : Option (List (List Nat × MVal))),
      OptimizedFBIPEvent.to_compact_dict { e with session_context := sc } =
        OptimizedFBIPEvent.to_compact_dict e) ∧
    (∀ (sid : List Nat) (d : MVal) (ev : OptimizedFBIPEvent),
      FBIPProtocolV3.reconstruct_event_from_dict sid d = .ok ev →
      ev.session_context = some [(strB ("session_id"), .str sid)]) := by
  constructor
  · intro e sc
    rfl
  · intro sid d ev h
    unfold FBIPProtocolV3.reconstruct_event_from_dict at h
    repeat obtain ⟨_, -, h⟩ := except_bind_ok _ _ _ h
    injection h with h2
    subst h2
    rfl

/-- The event decoded from `sampleEvent`'s compact map by a receiver whose
session id is `"sX"`. -/
def c10decoded : OptimizedFBIPEvent :=
  match FBIPProtocolV3.reconstruct_event_from_dict (strB ("sX"))
      sampleEvent.to_compact_dict with
  | .ok e => e
  | .error _ => sampleEvent

theorem c10_session_context_not_transmitted_witness :
    c10decoded.session_context = some [(strB ("session_id"), .str (strB ("sX")))] :=
  c10_session_context_not_transmitted.2 (strB ("sX")) sampleEvent.to_compact_dict
    c10decoded (by with_unfolding_all rfl)

/-! ## Claim C7 -/

/-- Claim C7: every event returned by `create_event` satisfies the range
invariants — `intensity ∈ [0, 1]`, `entanglement_strength ∈ [0, 1]` and
`duration_ms ≥ 1` — for all numeric values supplied in the input maps. -/
theorem c7_range_invariants (p : FBIPProtocolV3) (sd : SignalData) (a : ActionSpec)
    (ctx : Option (List (List Nat × MVal))) (now : ℚ) (now_ms : Nat)
    (ra rp rpat : List ℚ) (e : OptimizedFBIPEvent)
    (h : (p.create_event sd a ctx now now_ms ra rp rpat).1 = .ok e) :
    0 ≤ e.intensity ∧ e.intensity ≤ 1 ∧
    0 ≤ e.entanglement_strength ∧ e.entanglement_strength ≤ 1 ∧
    1 ≤ e.duration_ms := by
  unfold FBIPProtocolV3.create_event at h
  split at h
  · simp at h
  · simp only [Except.ok.injEq] at h
    subst h
    refine ⟨le_max_left _ _, max_le (by norm_num) (min_le_left _ _),
      le_max_left _ _, max_le (by norm_num) (min_le_left _ _), ?_⟩
    have h1 : (1 : Int) ≤ max 1 (sd.duration_ms.getD 200) := le_max_left _ _
    simpa using Int.toNat_le_toNat h1

/-- A deliberately out-of-range input: intensity 5, entanglement −3,
duration −100, all of which construction must clamp. -/
def c7signal : SignalData :=
  { SignalData.empty with
    signal := some (strB ("alpha_peak")),
    intensity := some (mkRat 5 1),
    entanglement_strength := some (mkRat (-3) 1),
    duration_ms := some (-100) }

/-- The event built from `c7signal`. -/
def c7event : OptimizedFBIPEvent :=
  match ((FBIPProtocolV3.init (strB ("s7")) .BINARY).create_event c7signal
      ActionSpec.empty none (mkRat 0 1) 0 [] [] []).1 with
  | .ok e => e
  | .error _ => sampleEvent

theorem c7_range_invariants_witness :
    0 ≤ c7event.intensity ∧ c7event.intensity ≤ 1 ∧
    0 ≤ c7event.entanglement_strength ∧ c7event.entanglement_strength ≤ 1 ∧
    1 ≤ c7event.duration_ms :=
  c7_range_invariants (FBIPProtocolV3.init (strB ("s7")) .BINARY) c7signal
    ActionSpec.empty none (mkRat 0 1) 0 [] [] [] c7event
    (by with_unfolding_all rfl)

/-! ## Claim C6 -/

/-- Claim C6 counterexample: `create_event` does **not** accept every pair
of input maps — a `signal_data` without the `"signal"` key fails
`_validate_signal_data` and raises `ValueError("Invalid signal data")`
(recording one protocol error) instead of normalizing. -/
theorem c6_counterexample :
    ((FBIPProtocolV3.init (strB ("s6")) .BINARY).create_event SignalData.empty
      ActionSpec.empty none (mkRat 0 1) 0 [] [] []).1 =
      .error (.valueError (strB ("Invalid signal data"))) := by
  with_unfolding_all rfl

/-- Claim C6 (amended): provided `signal_data` carries the `"signal"` key,
`create_event` never raises; unknown signal/action/network names and
out-of-range priorities fall back to the designated defaults, and numeric
fields are clamped into range. -/
theorem c6_create_event_amended (p : FBIPProtocolV3) (sd : SignalData)
    (a : ActionSpec) (ctx : Option (List (List Nat × MVal))) (now : ℚ)
    (now_ms : Nat) (ra rp rpat : List ℚ) (hsig : sd.signal.isSome = true) :
    ∃ e, (p.create_event sd a ctx now now_ms ra rp rpat).1 = .ok e ∧
      (SignalType.ofName (asciiUpper (sd.signal.getD (strB ("alpha_peak")))) = none →
        e.signal_type = .ALPHA_PEAK) ∧
      (ActionType.ofName (asciiUpper (a.action_type.getD (strB ("highlight_cluster")))) =
          none → e.action_type = .HIGHLIGHT_CLUSTER) ∧
      (ConsciousnessNetwork.ofName (asciiUpper (a.target_network.getD
          (strB ("executive")))) = none → e.target_network = .EXECUTIVE) ∧
      (Priority.ofWire (a.priority.getD 5) = none → e.priority = .NORMAL) ∧
      0 ≤ e.intensity ∧ e.intensity ≤ 1 ∧
      0 ≤ e.entanglement_strength ∧ e.entanglement_strength ≤ 1 ∧
      1 ≤ e.duration_ms := by
  unfold FBIPProtocolV3.create_event
  rw [if_neg (by simp [FBIPProtocolV3.validate_signal_data, hsig])]
  refine ⟨_, rfl, fun hst => ?_, fun hat => ?_, fun htn => ?_, fun hp => ?_,
    le_max_left _ _, max_le (by norm_num) (min_le_left _ _),
    le_max_left _ _, max_le (by norm_num) (min_le_left _ _), ?_⟩
  · simp [hst]
  · simp [hat]
  · simp [htn]
  · simp [hp]
  · have h1 : (1 : Int) ≤ max 1 (sd.duration_ms.getD 200) := le_max_left _ _
    simpa using Int.toNat_le_toNat h1

/-- Malformed-but-keyed inputs: unknown names everywhere and an invalid
priority, which the factory must normalize. -/
def c6signal : SignalData :=
  { SignalData.empty with
    signal := some (strB ("zzz_unknown")),
    intensity := some (mkRat 7 1) }

def c6action : ActionSpec :=
  { ActionSpec.empty with
    action_type := some (strB ("qqq_unknown")),
    target_network := some (strB ("nowhere")),
    priority := some 7 }

/-- The event built from the malformed inputs. -/
def c6event : OptimizedFBIPEvent :=
  match ((FBIPProtocolV3.init (strB ("s6")) .BINARY).create_event c6signal c6action
      none (mkRat 0 1) 0 [] [] []).1 with
  | .ok e => e
  | .error _ => sampleEvent

theorem c6_create_event_amended_witness :
    c6signal.signal.isSome = true ∧
    ((FBIPProtocolV3.init (strB ("s6")) .BINARY).create_event c6signal c6action
      none (mkRat 0 1) 0 [] [] []).1 = .ok c6event ∧
    c6event.signal_type = .ALPHA_PEAK ∧ c6event.action_type = .HIGHLIGHT_CLUSTER ∧
    c6event.target_network = .EXECUTIVE ∧ c6event.priority = .NORMAL ∧
    c6event.intensity ≤ 1 := by
  obtain ⟨e, he, h1, h2, h3, h4, -, hi, -⟩ :=
    c6_create_event_amended (FBIPProtocolV3.init (strB ("s6")) .BINARY) c6signal
      c6action none (mkRat 0 1) 0 [] [] [] (by with_unfolding_all rfl)
  have hee : e = c6event := by
    have : c6event = e := by
      unfold c6event
      rw [he]
    exact this.symm
  subst hee
  exact ⟨by with_unfolding_all rfl, he,
    h1 (by with_unfolding_all rfl), h2 (by with_unfolding_all rfl),
    h3 (by with_unfolding_all rfl), h4 (by with_unfolding_all rfl), hi⟩

/-! ## Claim C8 -/

/-- Whether an `Except` result is a success. -/
def exceptIsOk {ε α : Type} : Except ε α → Bool
  | .ok _ => true
  | .error _ => false

/-- Claim C8 counterexample: a successful `serialize_event` call does
**not** increment the session sequence counter (the counter starts at 0
and is still 0 afterwards, not 1). -/
theorem c8_counterexample :
    exceptIsOk ((FBIPProtocolV3.init (strB ("s8")) .BINARY).serialize_event
      sampleEvent (some .MSGPACK) (mkRat 0 1)).1 = true ∧
    ¬ ((FBIPProtocolV3.init (strB ("s8")) .BINARY).serialize_event sampleEvent
        (some .MSGPACK) (mkRat 0 1)).2.sequence_number =
      (FBIPProtocolV3.init (strB ("s8")) .BINARY).sequence_number + 1 := by
  constructor
  · with_unfolding_all rfl
  · intro h
    have h0 : ((FBIPProtocolV3.init (strB ("s8")) .BINARY).serialize_event sampleEvent
        (some .MSGPACK) (mkRat 0 1)).2.sequence_number = 0 := by
      with_unfolding_all rfl
    rw [h0] at h
    simp [FBIPProtocolV3.init] at h

/-- Claim C8 (amended): `serialize_event` and `deserialize_event` never
touch the sequence counter; only `create_event` increments it, by exactly
one per successful call, with no wrap-around.  A successful serialize
records one serialization sample and one packet count; a failed one
records one error instead; a successful deserialize appends one
deserialization-time sample without touching the packet count; a failed
one records one error. -/
theorem c8_sequencing_amended :
    (∀ (p : FBIPProtocolV3) (e : OptimizedFBIPEvent) (fmt : Option ProtocolFormat)
        (t : ℚ),
      (p.serialize_event e fmt t).2.sequence_number = p.sequence_number ∧
      (exceptIsOk (p.serialize_event e fmt t).1 = true →
        (p.serialize_event e fmt t).2.stats.total_packets = p.stats.total_packets + 1 ∧
        (p.serialize_event e fmt t).2.stats.error_count = p.stats.error_count ∧
        (p.serialize_event e fmt t).2.stats.serialization_times =
          dequePush p.stats.serialization_times t) ∧
      (exceptIsOk (p.serialize_event e fmt t).1 = false →
        (p.serialize_event e fmt t).2.stats.error_count = p.stats.error_count + 1 ∧
        (p.serialize_event e fmt t).2.stats.total_packets = p.stats.total_packets)) ∧
    (∀ (p : FBIPProtocolV3) (data : List Nat) (t : ℚ),
      (p.deserialize_event data t).2.sequence_number = p.sequence_number ∧
      (exceptIsOk (p.deserialize_event data t).1 = true →
        (p.deserialize_event data t).2.stats.deserialization_times =
          dequePush p.stats.deserialization_times t ∧
        (p.deserialize_event data t).2.stats.total_packets = p.stats.total_packets ∧
        (p.deserialize_event data t).2.stats.error_count = p.stats.error_count) ∧
      (exceptIsOk (p.deserialize_event data t).1 = false →
        (p.deserialize_event data t).2.stats.error_count = p.stats.error_count + 1)) ∧
    (∀ (p : FBIPProtocolV3) (sd : SignalData) (a : ActionSpec)
        (ctx : Option (List (List Nat × MVal))) (now : ℚ) (now_ms : Nat)
        (ra rp rpat : List ℚ),
      (exceptIsOk (p.create_event sd a ctx now now_ms ra rp rpat).1 = true →
        (p.create_event sd a ctx now now_ms ra rp rpat).2.sequence_number =
          p.sequence_number + 1) ∧
      (exceptIsOk (p.create_event sd a ctx now now_ms ra rp rpat).1 = false →
        (p.create_event sd a ctx now now_ms ra rp rpat).2.sequence_number =
          p.sequence_number)) := by
  refine ⟨fun p e fmt t => ?_, fun p data t => ?_, fun p sd a ctx now nms ra rp rpat => ?_⟩
  · unfold FBIPProtocolV3.serialize_event
    cases hinner : (match fmt.getD p.default_format with
      | .JSON => FBIPProtocolV3.serialize_json e
      | .BINARY => .ok (FBIPProtocolV3.serialize_binary e)
      | .MSGPACK => .ok (FBIPProtocolV3.serialize_msgpack e)
      | .COMPRESSED =>
        .ok (FBIPProtocolV3.serialize_compressed p.compression_threshold e)) with
    | ok data =>
      cases hjson : (jsonVal e.to_compact_dict).map List.length with
      | ok osz =>
        simp [hinner, hjson, exceptIsOk, PerformanceStats.record_serialization,
          PerformanceStats.record_error]
        split <;> simp
      | error err =>
        simp [hinner, hjson, exceptIsOk, PerformanceStats.record_error]
    | error err =>
      simp [hinner, exceptIsOk, PerformanceStats.record_error]
  · unfold FBIPProtocolV3.deserialize_event
    cases hres : (do
        let fmt ← FBIPProtocolV3.detect_format data
        match fmt with
        | .JSON => FBIPProtocolV3.deserialize_json p.session_id data
        | .BINARY => FBIPProtocolV3.deserialize_binary p.session_id data
        | .MSGPACK => FBIPProtocolV3.deserialize_msgpack p.session_id data
        | .COMPRESSED => FBIPProtocolV3.deserialize_compressed p.session_id data :
        Except PErr OptimizedFBIPEvent) with
    | ok ev => simp [hres, exceptIsOk]
    | error err => simp [hres, exceptIsOk, PerformanceStats.record_error]
  · unfold FBIPProtocolV3.create_event
    split
    · simp [exceptIsOk]
    · simp [exceptIsOk]

/-- A minimal valid signal map for the C8 witness. -/
def c8signal : SignalData :=
  { SignalData.empty with signal := some (strB ("beta_burst")) }

theorem c8_sequencing_amended_witness :
    ((FBIPProtocolV3.init (strB ("s8w")) .BINARY).serialize_event sampleEvent
      (some .MSGPACK) (mkRat 0 1)).2.stats.total_packets = 1 ∧
    ((FBIPProtocolV3.init (strB ("s8w")) .BINARY).serialize_event sampleEvent
      (some .MSGPACK) (mkRat 0 1)).2.sequence_number = 0 ∧
    ((FBIPProtocolV3.init (strB ("s8w")) .BINARY).deserialize_event [0]
      (mkRat 0 1)).2.stats.error_count = 1 ∧
    ((FBIPProtocolV3.init (strB ("s8w")) .BINARY).create_event c8signal
      ActionSpec.empty none (mkRat 0 1) 0 [] [] []).2.sequence_number = 1 := by
  have h1 := (c8_sequencing_amended.1 (FBIPProtocolV3.init (strB ("s8w")) .BINARY)
    sampleEvent (some .MSGPACK) (mkRat 0 1)).2.1 (by with_unfolding_all rfl)
  have h2 := (c8_sequencing_amended.1 (FBIPProtocolV3.init (strB ("s8w")) .BINARY)
    sampleEvent (some .MSGPACK) (mkRat 0 1)).1
  have h3 := (c8_sequencing_amended.2.1 (FBIPProtocolV3.init (strB ("s8w")) .BINARY)
    [0] (mkRat 0 1)).2.2 (by with_unfolding_all rfl)
  have h4 := (c8_sequencing_amended.2.2 (FBIPProtocolV3.init (strB ("s8w")) .BINARY)
    c8signal ActionSpec.empty none (mkRat 0 1) 0 [] [] []).1
    (by with_unfolding_all rfl)
  refine ⟨?_, ?_, ?_, ?_⟩
  · rw [h1.1]
    rfl
  · rw [h2]
    rfl
  · rw [h3]
    rfl
  · rw [h4]
    rfl

/-! ## Claim C3 -/

/-- A compact event map that is valid except for its signal-type field:
`st = 9999` maps to no `SignalType` member. -/
def c3dict : MVal :=
  .map [(kS ("id"), .str (strB ("x"))),
        (kS ("ts"), .float (mkRat 0 1)),
        (kS ("v"), .int 512),
        (kS ("st"), .int 9999),
        (kS ("i"), .float (mkRat 1 2)),
        (kS ("d"), .int 100),
        (kS ("at"), .int 0),
        (kS ("tn"), .int 0),
        (kS ("nodes"), .list []),
        (kS ("params"), .map []),
        (kS ("p"), .int 5),
        (kS ("eb"), .float (mkRat 0 1))]

/-- The msgpack bytes of `c3dict`. -/
def c3bytes : List Nat := packVal c3dict

/-- Claim C3 counterexample: decoding a compact map whose `st` is 9999
does **not** substitute `ALPHA_PEAK` — `SignalType(9999)` raises
`ValueError` and the reconstruction fails with no event. -/
theorem c3_counterexample :
    FBIPProtocolV3.reconstruct_event_from_dict (strB ("s3")) c3dict =
      .error PErr.unknownEnum := by
  with_unfolding_all rfl

/-- Claim C3 (amended): decoding a compact event map whose `st` holds the
out-of-range integer 9999 raises the unknown-enum error instead of
substituting the default variant, and the facade's `deserialize_event`
records the failure by incrementing the error counter exactly once. -/
theorem c3_unknown_enum_amended (p : FBIPProtocolV3) (t : ℚ) :
    (p.deserialize_event c3bytes t).1 = .error PErr.unknownEnum ∧
    (p.deserialize_event c3bytes t).2.stats.error_count = p.stats.error_count + 1 ∧
    (p.deserialize_event c3bytes t).2.stats.total_packets = p.stats.total_packets := by
  refine ⟨?_, ?_, ?_⟩ <;> with_unfolding_all rfl

theorem c3_unknown_enum_amended_witness :
    ((FBIPProtocolV3.init (strB ("s3")) .BINARY).deserialize_event c3bytes
      (mkRat 0 1)).1 = .error PErr.unknownEnum ∧
    ((FBIPProtocolV3.init (strB ("s3")) .BINARY).deserialize_event c3bytes
      (mkRat 0 1)).2.stats.error_count = 1 := by
  have h := c3_unknown_enum_amended (FBIPProtocolV3.init (strB ("s3")) .BINARY)
    (mkRat 0 1)
  exact ⟨h.1, by rw [h.2.1]; rfl⟩

/-! ## Claim C4 -/

theorem le_length_packPairs (ps : List (MVal × MVal)) :
    2 * ps.length ≤ (packPairs ps).length := by
  induction ps with
  | nil => simp [packPairs]
  | cons p ps ih =>
    obtain ⟨k, v⟩ := p
    have h1 := one_le_length_packVal k
    have h2 := one_le_length_packVal v
    simp only [packPairs, List.length_append, List.length_cons]
    omega

theorem FBIP_MAGIC_eq : FBIP_MAGIC_BYTES = [70, 66, 73, 80] := by
  with_unfolding_all rfl

theorem detect_format_of_magic (data : List Nat) (h4 : data.take 4 = FBIP_MAGIC_BYTES)
    (hlen : 4 ≤ data.length) : FBIPProtocolV3.detect_format data = .ok .BINARY := by
  unfold FBIPProtocolV3.detect_format
  rw [if_neg (by omega), if_pos h4]

theorem detect_format_msgpack_head (b : Nat) (rest : List Nat)
    (hlen : 4 ≤ (b :: rest).length) (h70 : b ≠ 70) (h7b : b ≠ 0x7b)
    (h78 : b ≠ 0x78) : FBIPProtocolV3.detect_format (b :: rest) = .ok .MSGPACK := by
  unfold FBIPProtocolV3.detect_format
  rw [if_neg (by omega)]
  rw [if_neg (by
    intro h
    have h2 : b = 70 ∧ rest.take 3 = [66, 73, 80] := by
      simpa [List.take, FBIP_MAGIC_eq] using h
    exact h70 h2.1)]
  rw [if_neg (by
    simp only [List.take, Bool.and_eq_true, decide_eq_true_eq]
    intro h
    exact h7b (by
      have := h.1
      simpa using this))]
  rw [if_neg (by
    intro h
    rcases h with h | h <;>
      exact h78 ((List.cons.injEq _ _ _ _).mp (by simpa [List.take] using h) |>.1))]

theorem twelve_le_to_compact_pairs (e : OptimizedFBIPEvent) :
    12 ≤ e.to_compact_pairs.length := by
  unfold OptimizedFBIPEvent.to_compact_pairs OptimizedFBIPEvent.mandatory_pairs
  simp only [List.length_append, List.length_cons, List.length_nil]
  omega

theorem detect_format_packed_map (ps : List (MVal × MVal)) (h12 : 12 ≤ ps.length) :
    FBIPProtocolV3.detect_format (packVal (.map ps)) = .ok .MSGPACK := by
  have hlen2 := le_length_packPairs ps
  by_cases h16 : ps.length < 16
  · have hshape : packVal (.map ps) = (0x80 + ps.length) :: packPairs ps := by
      simp [packVal, mapHeader, if_pos h16]
    rw [hshape]
    exact detect_format_msgpack_head _ _ (by simp only [List.length_cons]; omega)
      (by omega) (by omega) (by omega)
  · have hshape : packVal (.map ps) = 0xde :: (beBytes 2 ps.length ++ packPairs ps) := by
      simp [packVal, mapHeader, if_neg h16]
    rw [hshape]
    exact detect_format_msgpack_head _ _
      (by simp only [List.length_cons, List.length_append, length_beBytes]; omega)
      (by omega) (by omega) (by omega)

/-- Claim C4 (amended): format detection recovers Compact-Binary and
Raw-Compact outputs, but **never** returns Compressed for the Compressed
codec's output: below the threshold that output is raw msgpack (detected
as Raw-Compact/MSGPACK), above it the framed packet starts with the FBIP
magic and is detected as Compact-Binary/BINARY. -/
theorem c4_detect_amended (threshold : Nat) (e : OptimizedFBIPEvent) :
    FBIPProtocolV3.detect_format (FBIPProtocolV3.serialize_binary e) = .ok .BINARY ∧
    FBIPProtocolV3.detect_format (FBIPProtocolV3.serialize_msgpack e) = .ok .MSGPACK ∧
    FBIPProtocolV3.detect_format (FBIPProtocolV3.serialize_compressed threshold e) =
      .ok (if (FBIPProtocolV3.serialize_msgpack e).length > threshold then
        ProtocolFormat.BINARY else ProtocolFormat.MSGPACK) ∧
    FBIPProtocolV3.detect_format (FBIPProtocolV3.serialize_compressed threshold e) ≠
      .ok .COMPRESSED := by
  have hmsg : FBIPProtocolV3.detect_format (FBIPProtocolV3.serialize_msgpack e) =
      .ok .MSGPACK :=
    detect_format_packed_map _ (twelve_le_to_compact_pairs e)
  have hframe : ∀ (h : PacketHeader) (payload : List Nat),
      FBIPProtocolV3.detect_format (PacketHeader.pack h ++ payload) = .ok .BINARY := by
    intro h payload
    apply detect_format_of_magic
    · rw [show PacketHeader.pack h ++ payload =
        FBIP_MAGIC_BYTES ++ (beBytes 2 FBIP_VERSION ++ [h.packet_type, h.flags] ++
          beBytes 4 h.data_length ++ beBytes 4 h.checksum ++ payload) by
        simp [PacketHeader.pack]]
      exact List.take_left' rfl
    · rw [List.length_append, length_header_pack]
      omega
  refine ⟨?_, hmsg, ?_, ?_⟩
  · exact hframe _ _
  · by_cases hgt : (FBIPProtocolV3.serialize_msgpack e).length > threshold
    · rw [if_pos hgt]
      unfold FBIPProtocolV3.serialize_compressed
      rw [if_pos hgt]
      exact hframe _ _
    · rw [if_neg hgt]
      unfold FBIPProtocolV3.serialize_compressed
      rw [if_neg hgt]
      exact hmsg
  · by_cases hgt : (FBIPProtocolV3.serialize_msgpack e).length > threshold
    · unfold FBIPProtocolV3.serialize_compressed
      rw [if_pos hgt, hframe _ _]
      simp
    · unfold FBIPProtocolV3.serialize_compressed
      rw [if_neg hgt, hmsg]
      simp

/-- Claim C4 (counterexample): for a small event the Compressed codec
emits raw msgpack (its size is below the 512-byte threshold), and the
detector classifies those bytes as `MSGPACK`, not `COMPRESSED` — so
`detect(encode(E, COMPRESSED)) = COMPRESSED` fails. -/
theorem c4_counterexample :
    FBIPProtocolV3.detect_format
      (FBIPProtocolV3.serialize_compressed COMPRESSION_THRESHOLD sampleEvent) =
      .ok .MSGPACK ∧ ProtocolFormat.MSGPACK ≠ ProtocolFormat.COMPRESSED :=
  ⟨by with_unfolding_all rfl, fun h => ProtocolFormat.noConfusion h⟩

/-! ## Claim C9 -/

def c9protocol : FBIPProtocolV3 := FBIPProtocolV3.init (strB ("sessB")) .BINARY

def sd9 : SignalData :=
  { SignalData.empty with
    signal := some (strB ("gamma_sync")),
    intensity := some (mkRat 4 5),
    duration_ms := some 400,
    frequency_hz := some (mkRat 40 1) }

def as9 : ActionSpec :=
  { ActionSpec.empty with
    action_type := some (strB ("create_superposition")),
    target_network := some (strB ("executive")),
    priority := some 8,
    target_nodes := some [strB ("n1")] }

def c9amps : List ℚ := [mkRat 1 2, mkRat 1 2, mkRat 1 2]

def c9event : OptimizedFBIPEvent :=
  match (c9protocol.create_event sd9 as9 none (mkRat 0 1) 0 c9amps c9amps []).1 with
  | .ok e => e
  | .error _ => sampleEvent

def c9roundtrip : Option OptimizedFBIPEvent :=
  match unpackTop (FBIPProtocolV3.serialize_msgpack c9event) with
  | .ok d =>
    (FBIPProtocolV3.reconstruct_event_from_dict (strB ("sessB")) d).toOption
  | .error _ => none

/-- Claim C9 (code bug): the spec's own gamma_sync scenario. The event is
created successfully and carries a quantum state, and the inner
Compact-Binary serializer does produce a framed packet whose packet_type
byte is SingleEvent (0) whose compact map round-trips intensity (within
1e-5), duration_ms, frequency_hz, target_nodes and priority — but the
facade `serialize_event` itself returns a `TypeError`: its size-estimate
step calls `json.dumps(event.to_compact_dict())`, which raises on the
bytes-valued quantum-state fields, so a quantum event can never be
serialized through the public API as the spec claims. -/
theorem c9_gamma_sync_code_bug :
    (c9protocol.create_event sd9 as9 none (mkRat 0 1) 0 c9amps c9amps []).1.map
        (fun e => e.quantum_state.isSome) = .ok true ∧
    (c9protocol.serialize_event c9event (some .BINARY) (mkRat 0 1)).1 =
      .error PErr.jsonTypeError ∧
    (FBIPProtocolV3.serialize_binary c9event).take 4 = FBIP_MAGIC_BYTES ∧
    ((FBIPProtocolV3.serialize_binary c9event).drop 6).take 1 =
      [PacketType.SINGLE_EVENT] ∧
    (c9roundtrip.map fun e =>
        decide (|e.intensity - mkRat 4 5| < mkRat 1 100000) &&
        (decide (e.duration_ms = 400) &&
        (decide (e.frequency_hz = some (mkRat 40 1)) &&
        (decide (e.target_nodes = [strB ("n1")]) &&
        decide (e.priority = Priority.HIGH))))) = some true := by
  refine ⟨?_, ?_, ?_, ?_, ?_⟩ <;> with_unfolding_all rfl

/-! ## Key lookup in the compact dict (`reconstruct ∘ to_compact` machinery) -/

theorem option_some_or {α : Type} (a : α) (o : Option α) : (some a).or o = some a := rfl

theorem option_none_or {α : Type} (o : Option α) : Option.or none o = o := rfl

theorem option_map_or {α β : Type} (f : α → β) (x y : Option α) :
    (x.or y).map f = (x.map f).or (y.map f) := by
  cases x <;> rfl

theorem mGet_append (ps qs : List (MVal × MVal)) (k : List Nat) :
    mGet (ps ++ qs) k = (mGet ps k).or (mGet qs k) := by
  unfold mGet
  rw [List.find?_append, option_map_or]

theorem mGet_one (s k : List Nat) (v : MVal) :
    mGet [(MVal.str s, v)] k = if s = k then some v else none := by
  by_cases h : s = k
  · rw [if_pos h]
    unfold mGet
    rw [List.find?_cons_of_pos _ (by simpa using h)]
    rfl
  · rw [if_neg h]
    unfold mGet
    rw [List.find?_cons_of_neg _ (by simpa using h)]
    rfl

theorem mGet_man_id (e : OptimizedFBIPEvent) :
    mGet e.mandatory_pairs (strB ("id")) = some (.str e.event_id) := by
  with_unfolding_all rfl

theorem mGet_man_ts (e : OptimizedFBIPEvent) :
    mGet e.mandatory_pairs (strB ("ts")) = some (.float e.timestamp) := by
  with_unfolding_all rfl

theorem mGet_man_v (e : OptimizedFBIPEvent) :
    mGet e.mandatory_pairs (strB ("v")) = some (.int e.version) := by
  with_unfolding_all rfl

theorem mGet_man_st (e : OptimizedFBIPEvent) :
    mGet e.mandatory_pairs (strB ("st")) = some (.int e.signal_type.toNat) := by
  with_unfolding_all rfl

theorem mGet_man_i (e : OptimizedFBIPEvent) :
    mGet e.mandatory_pairs (strB ("i")) = some (.float (roundDec 3 e.intensity)) := by
  with_unfolding_all rfl

theorem mGet_man_d (e : OptimizedFBIPEvent) :
    mGet e.mandatory_pairs (strB ("d")) = some (.int e.duration_ms) := by
  with_unfolding_all rfl

theorem mGet_man_at (e : OptimizedFBIPEvent) :
    mGet e.mandatory_pairs (strB ("at")) = some (.int e.action_type.toNat) := by
  with_unfolding_all rfl

theorem mGet_man_tn (e : OptimizedFBIPEvent) :
    mGet e.mandatory_pairs (strB ("tn")) = some (.int e.target_network.toNat) := by
  with_unfolding_all rfl

theorem mGet_man_nodes (e : OptimizedFBIPEvent) :
    mGet e.mandatory_pairs (strB ("nodes")) =
      some (.list (e.target_nodes.map .str)) := by
  with_unfolding_all rfl

theorem mGet_man_params (e : OptimizedFBIPEvent) :
    mGet e.mandatory_pairs (strB ("params")) =
      some (.map (e.action_parameters.map fun p => (.str p.1, p.2))) := by
  with_unfolding_all rfl

theorem mGet_man_p (e : OptimizedFBIPEvent) :
    mGet e.mandatory_pairs (strB ("p")) = some (.int e.priority.toNat) := by
  with_unfolding_all rfl

theorem mGet_man_eb (e : OptimizedFBIPEvent) :
    mGet e.mandatory_pairs (strB ("eb")) =
      some (.float (roundDec 2 e.energy_budget)) := by
  with_unfolding_all rfl

theorem mGet_man_f (e : OptimizedFBIPEvent) :
    mGet e.mandatory_pairs (strB ("f")) = none := by
  with_unfolding_all rfl

theorem mGet_man_qs (e : OptimizedFBIPEvent) :
    mGet e.mandatory_pairs (strB ("qs")) = none := by
  with_unfolding_all rfl

theorem mGet_man_sc (e : OptimizedFBIPEvent) :
    mGet e.mandatory_pairs (strB ("sc")) = none := by
  with_unfolding_all rfl

theorem mGet_man_es (e : OptimizedFBIPEvent) :
    mGet e.mandatory_pairs (strB ("es")) = none := by
  with_unfolding_all rfl

theorem mGet_man_cm (e : OptimizedFBIPEvent) :
    mGet e.mandatory_pairs (strB ("cm")) = none := by
  with_unfolding_all rfl

theorem mGet_man_sdc (e : OptimizedFBIPEvent) :
    mGet e.mandatory_pairs (strB ("sdc")) = none := by
  with_unfolding_all rfl

theorem mGet_man_mp (e : OptimizedFBIPEvent) :
    mGet e.mandatory_pairs (strB ("mp")) = none := by
  with_unfolding_all rfl

theorem mGet_man_rc (e : OptimizedFBIPEvent) :
    mGet e.mandatory_pairs (strB ("rc")) = none := by
  with_unfolding_all rfl

theorem mGet_man_uc (e : OptimizedFBIPEvent) :
    mGet e.mandatory_pairs (strB ("uc")) = none := by
  with_unfolding_all rfl

theorem freqPair_shape (o : Option ℚ) :
    freqPair o = [] ∨ ∃ v, freqPair o = [(MVal.str (strB ("f")), v)] := by
  cases o
  · exact .inl rfl
  · exact .inr ⟨_, rfl⟩

theorem qsPair_shape (o : Option QuantumState) :
    qsPair o = [] ∨ ∃ v, qsPair o = [(MVal.str (strB ("qs")), v)] := by
  cases o
  · exact .inl rfl
  · exact .inr ⟨_, rfl⟩

theorem scPair_shape (n : Nat) :
    scPair n = [] ∨ ∃ v, scPair n = [(MVal.str (strB ("sc")), v)] := by
  unfold scPair
  split
  · exact .inr ⟨_, rfl⟩
  · exact .inl rfl

theorem esPair_shape (q : ℚ) :
    esPair q = [] ∨ ∃ v, esPair q = [(MVal.str (strB ("es")), v)] := by
  unfold esPair
  split
  · exact .inr ⟨_, rfl⟩
  · exact .inl rfl

theorem cmPair_shape (o : Option ConsciousnessMetrics) :
    cmPair o = [] ∨ ∃ v, cmPair o = [(MVal.str (strB ("cm")), v)] := by
  cases o
  · exact .inl rfl
  · exact .inr ⟨_, rfl⟩

theorem sdcPair_shape (o : Option (List Nat)) :
    sdcPair o = [] ∨ ∃ v, sdcPair o = [(MVal.str (strB ("sdc")), v)] := by
  cases o with
  | none => exact .inl rfl
  | some l =>
    by_cases h : l ≠ []
    · refine .inr ⟨MVal.list (l.map .int), ?_⟩
      simp only [sdcPair]
      rw [if_pos h]
      rfl
    · refine .inl ?_
      simp only [sdcPair]
      rw [if_neg h]

theorem mpPair_shape (o : Option (List ℚ)) :
    mpPair o = [] ∨ ∃ v, mpPair o = [(MVal.str (strB ("mp")), v)] := by
  cases o
  · exact .inl rfl
  · exact .inr ⟨_, rfl⟩

theorem rcPair_shape (b : Bool) :
    rcPair b = [] ∨ ∃ v, rcPair b = [(MVal.str (strB ("rc")), v)] := by
  cases b
  · exact .inl rfl
  · exact .inr ⟨_, rfl⟩

theorem ucPair_shape (o : Option (List (List Nat × MVal))) :
    ucPair o = [] ∨ ∃ v, ucPair o = [(MVal.str (strB ("uc")), v)] := by
  cases o with
  | none => exact .inl rfl
  | some uc =>
    by_cases h1 : uc.isEmpty
    · refine .inl ?_
      simp only [ucPair]
      rw [if_pos h1]
    · by_cases h2 : (uc.filter fun p => p.1 ∈ ucAllowKeys).isEmpty
      · refine .inl ?_
        simp only [ucPair]
        rw [if_neg h1]
        show (if (uc.filter fun p => p.1 ∈ ucAllowKeys).isEmpty then
            ([] : List (MVal × MVal))
          else [(kS ("uc"), .map ((uc.filter fun p => p.1 ∈ ucAllowKeys).map
            fun p => (.str p.1, p.2)))]) = []
        rw [if_pos h2]
      · refine .inr ⟨MVal.map ((uc.filter fun p => p.1 ∈ ucAllowKeys).map
          fun p => (.str p.1, p.2)), ?_⟩
        simp only [ucPair]
        rw [if_neg h1]
        show (if (uc.filter fun p => p.1 ∈ ucAllowKeys).isEmpty then
            ([] : List (MVal × MVal))
          else [(kS ("uc"), .map ((uc.filter fun p => p.1 ∈ ucAllowKeys).map
            fun p => (.str p.1, p.2)))]) =
          [(MVal.str (strB ("uc")), MVal.map ((uc.filter
            fun p => p.1 ∈ ucAllowKeys).map fun p => (.str p.1, p.2)))]
        rw [if_neg h2]
        rfl

theorem mGet_shape_ne {l : List (MVal × MVal)} {s : List Nat}
    (hs : l = [] ∨ ∃ v, l = [(MVal.str s, v)]) (k : List Nat) (h : ¬ s = k) :
    mGet l k = none := by
  rcases hs with rfl | ⟨v, rfl⟩
  · rfl
  · rw [mGet_one, if_neg h]

theorem option_or_none {α : Type} (o : Option α) : o.or none = o := by
  cases o <;> rfl

theorem mGet_tcp_id (e : OptimizedFBIPEvent) :
    mGet e.to_compact_pairs (strB ("id")) = some (.str e.event_id) := by
  unfold OptimizedFBIPEvent.to_compact_pairs
  simp only [mGet_append, mGet_man_id, option_some_or]

theorem mGet_tcp_ts (e : OptimizedFBIPEvent) :
    mGet e.to_compact_pairs (strB ("ts")) = some (.float e.timestamp) := by
  unfold OptimizedFBIPEvent.to_compact_pairs
  simp only [mGet_append, mGet_man_ts, option_some_or]

theorem mGet_tcp_v (e : OptimizedFBIPEvent) :
    mGet e.to_compact_pairs (strB ("v")) = some (.int e.version) := by
  unfold OptimizedFBIPEvent.to_compact_pairs
  simp only [mGet_append, mGet_man_v, option_some_or]

theorem mGet_tcp_st (e : OptimizedFBIPEvent) :
    mGet e.to_compact_pairs (strB ("st")) = some (.int e.signal_type.toNat) := by
  unfold OptimizedFBIPEvent.to_compact_pairs
  simp only [mGet_append, mGet_man_st, option_some_or]

theorem mGet_tcp_i (e : OptimizedFBIPEvent) :
    mGet e.to_compact_pairs (strB ("i")) =
      some (.float (roundDec 3 e.intensity)) := by
  unfold OptimizedFBIPEvent.to_compact_pairs
  simp only [mGet_append, mGet_man_i, option_some_or]

theorem mGet_tcp_d (e : OptimizedFBIPEvent) :
    mGet e.to_compact_pairs (strB ("d")) = some (.int e.duration_ms) := by
  unfold OptimizedFBIPEvent.to_compact_pairs
  simp only [mGet_append, mGet_man_d, option_some_or]

theorem mGet_tcp_at (e : OptimizedFBIPEvent) :
    mGet e.to_compact_pairs (strB ("at")) = some (.int e.action_type.toNat) := by
  unfold OptimizedFBIPEvent.to_compact_pairs
  simp only [mGet_append, mGet_man_at, option_some_or]

theorem mGet_tcp_tn (e : OptimizedFBIPEvent) :
    mGet e.to_compact_pairs (strB ("tn")) =
      some (.int e.target_network.toNat) := by
  unfold OptimizedFBIPEvent.to_compact_pairs
  simp only [mGet_append, mGet_man_tn, option_some_or]

theorem mGet_tcp_nodes (e : OptimizedFBIPEvent) :
    mGet e.to_compact_pairs (strB ("nodes")) =
      some (.list (e.target_nodes.map .str)) := by
  unfold OptimizedFBIPEvent.to_compact_pairs
  simp only [mGet_append, mGet_man_nodes, option_some_or]

theorem mGet_tcp_params (e : OptimizedFBIPEvent) :
    mGet e.to_compact_pairs (strB ("params")) =
      some (.map (e.action_parameters.map fun p => (.str p.1, p.2))) := by
  unfold OptimizedFBIPEvent.to_compact_pairs
  simp only [mGet_append, mGet_man_params, option_some_or]

theorem mGet_tcp_p (e : OptimizedFBIPEvent) :
    mGet e.to_compact_pairs (strB ("p")) = some (.int e.priority.toNat) := by
  unfold OptimizedFBIPEvent.to_compact_pairs
  simp only [mGet_append, mGet_man_p, option_some_or]

theorem mGet_tcp_eb (e : OptimizedFBIPEvent) :
    mGet e.to_compact_pairs (strB ("eb")) =
      some (.float (roundDec 2 e.energy_budget)) := by
  unfold OptimizedFBIPEvent.to_compact_pairs
  simp only [mGet_append, mGet_man_eb, option_some_or]

theorem mGet_tcp_f (e : OptimizedFBIPEvent) :
    mGet e.to_compact_pairs (strB ("f")) =
      e.frequency_hz.map fun q => .float (roundDec 1 q) := by
  unfold OptimizedFBIPEvent.to_compact_pairs
  simp only [mGet_append, mGet_man_f]
  rw [mGet_shape_ne (qsPair_shape e.quantum_state) (strB ("f")) (by decide),
      mGet_shape_ne (scPair_shape e.superposition_count) (strB ("f")) (by decide),
      mGet_shape_ne (esPair_shape e.entanglement_strength) (strB ("f")) (by decide),
      mGet_shape_ne (cmPair_shape e.consciousness_metrics) (strB ("f")) (by decide),
      mGet_shape_ne (sdcPair_shape e.sdc_chip_targets) (strB ("f")) (by decide),
      mGet_shape_ne (mpPair_shape e.memristor_pattern) (strB ("f")) (by decide),
      mGet_shape_ne (rcPair_shape e.requires_confirmation) (strB ("f")) (by decide),
      mGet_shape_ne (ucPair_shape e.user_context) (strB ("f")) (by decide)]
  simp only [option_none_or, option_or_none]
  cases e.frequency_hz with
  | none => rfl
  | some q =>
    rw [show freqPair (some q) =
        [(MVal.str (strB ("f")), MVal.float (roundDec 1 q))] from rfl,
      mGet_one, if_pos rfl]
    rfl

theorem mGet_tcp_qs (e : OptimizedFBIPEvent) :
    mGet e.to_compact_pairs (strB ("qs")) =
      e.quantum_state.map fun q => q.to_compact_dict := by
  unfold OptimizedFBIPEvent.to_compact_pairs
  simp only [mGet_append, mGet_man_qs]
  rw [mGet_shape_ne (freqPair_shape e.frequency_hz) (strB ("qs")) (by decide),
      mGet_shape_ne (scPair_shape e.superposition_count) (strB ("qs")) (by decide),
      mGet_shape_ne (esPair_shape e.entanglement_strength) (strB ("qs")) (by decide),
      mGet_shape_ne (cmPair_shape e.consciousness_metrics) (strB ("qs")) (by decide),
      mGet_shape_ne (sdcPair_shape e.sdc_chip_targets) (strB ("qs")) (by decide),
      mGet_shape_ne (mpPair_shape e.memristor_pattern) (strB ("qs")) (by decide),
      mGet_shape_ne (rcPair_shape e.requires_confirmation) (strB ("qs")) (by decide),
      mGet_shape_ne (ucPair_shape e.user_context) (strB ("qs")) (by decide)]
  simp only [option_none_or, option_or_none]
  cases e.quantum_state with
  | none => rfl
  | some q =>
    rw [show qsPair (some q) =
        [(MVal.str (strB ("qs")), q.to_compact_dict)] from rfl,
      mGet_one, if_pos rfl]
    rfl

theorem mGet_tcp_sc (e : OptimizedFBIPEvent) :
    mGet e.to_compact_pairs (strB ("sc")) =
      (if e.superposition_count > 0 then some (.int e.superposition_count)
       else none) := by
  unfold OptimizedFBIPEvent.to_compact_pairs
  simp only [mGet_append, mGet_man_sc]
  rw [mGet_shape_ne (freqPair_shape e.frequency_hz) (strB ("sc")) (by decide),
      mGet_shape_ne (qsPair_shape e.quantum_state) (strB ("sc")) (by decide),
      mGet_shape_ne (esPair_shape e.entanglement_strength) (strB ("sc")) (by decide),
      mGet_shape_ne (cmPair_shape e.consciousness_metrics) (strB ("sc")) (by decide),
      mGet_shape_ne (sdcPair_shape e.sdc_chip_targets) (strB ("sc")) (by decide),
      mGet_shape_ne (mpPair_shape e.memristor_pattern) (strB ("sc")) (by decide),
      mGet_shape_ne (rcPair_shape e.requires_confirmation) (strB ("sc")) (by decide),
      mGet_shape_ne (ucPair_shape e.user_context) (strB ("sc")) (by decide)]
  simp only [option_none_or, option_or_none]
  by_cases h : e.superposition_count > 0
  · have hs : scPair e.superposition_count =
        [(MVal.str (strB ("sc")), MVal.int e.superposition_count)] := by
      simp only [scPair]
      rw [if_pos h]
      rfl
    rw [if_pos h, hs, mGet_one, if_pos rfl]
  · have hs : scPair e.superposition_count = [] := by
      simp only [scPair]
      rw [if_neg h]
    rw [if_neg h, hs]
    rfl

theorem mGet_tcp_es (e : OptimizedFBIPEvent) :
    mGet e.to_compact_pairs (strB ("es")) =
      (if e.entanglement_strength > 0 then
        some (.float (roundDec 3 e.entanglement_strength))
       else none) := by
  unfold OptimizedFBIPEvent.to_compact_pairs
  simp only [mGet_append, mGet_man_es]
  rw [mGet_shape_ne (freqPair_shape e.frequency_hz) (strB ("es")) (by decide),
      mGet_shape_ne (qsPair_shape e.quantum_state) (strB ("es")) (by decide),
      mGet_shape_ne (scPair_shape e.superposition_count) (strB ("es")) (by decide),
      mGet_shape_ne (cmPair_shape e.consciousness_metrics) (strB ("es")) (by decide),
      mGet_shape_ne (sdcPair_shape e.sdc_chip_targets) (strB ("es")) (by decide),
      mGet_shape_ne (mpPair_shape e.memristor_pattern) (strB ("es")) (by decide),
      mGet_shape_ne (rcPair_shape e.requires_confirmation) (strB ("es")) (by decide),
      mGet_shape_ne (ucPair_shape e.user_context) (strB ("es")) (by decide)]
  simp only [option_none_or, option_or_none]
  by_cases h : e.entanglement_strength > 0
  · have hs : esPair e.entanglement_strength =
        [(MVal.str (strB ("es")),
          MVal.float (roundDec 3 e.entanglement_strength))] := by
      simp only [esPair]
      rw [if_pos h]
      rfl
    rw [if_pos h, hs, mGet_one, if_pos rfl]
  · have hs : esPair e.entanglement_strength = [] := by
      simp only [esPair]
      rw [if_neg h]
    rw [if_neg h, hs]
    rfl

theorem mGet_tcp_cm (e : OptimizedFBIPEvent) :
    mGet e.to_compact_pairs (strB ("cm")) =
      e.consciousness_metrics.map fun cm => cm.to_compact_dict := by
  unfold OptimizedFBIPEvent.to_compact_pairs
  simp only [mGet_append, mGet_man_cm]
  rw [mGet_shape_ne (freqPair_shape e.frequency_hz) (strB ("cm")) (by decide),
      mGet_shape_ne (qsPair_shape e.quantum_state) (strB ("cm")) (by decide),
      mGet_shape_ne (scPair_shape e.superposition_count) (strB ("cm")) (by decide),
      mGet_shape_ne (esPair_shape e.entanglement_strength) (strB ("cm")) (by decide),
      mGet_shape_ne (sdcPair_shape e.sdc_chip_targets) (strB ("cm")) (by decide),
      mGet_shape_ne (mpPair_shape e.memristor_pattern) (strB ("cm")) (by decide),
      mGet_shape_ne (rcPair_shape e.requires_confirmation) (strB ("cm")) (by decide),
      mGet_shape_ne (ucPair_shape e.user_context) (strB ("cm")) (by decide)]
  simp only [option_none_or, option_or_none]
  cases e.consciousness_metrics with
  | none => rfl
  | some cm =>
    rw [show cmPair (some cm) =
        [(MVal.str (strB ("cm")), cm.to_compact_dict)] from rfl,
      mGet_one, if_pos rfl]
    rfl

theorem mGet_tcp_sdc (e : OptimizedFBIPEvent)
    (h : ∀ l, e.sdc_chip_targets = some l → l ≠ []) :
    mGet e.to_compact_pairs (strB ("sdc")) =
      e.sdc_chip_targets.map fun l => MVal.list (l.map .int) := by
  unfold OptimizedFBIPEvent.to_compact_pairs
  simp only [mGet_append, mGet_man_sdc]
  rw [mGet_shape_ne (freqPair_shape e.frequency_hz) (strB ("sdc")) (by decide),
      mGet_shape_ne (qsPair_shape e.quantum_state) (strB ("sdc")) (by decide),
      mGet_shape_ne (scPair_shape e.superposition_count) (strB ("sdc")) (by decide),
      mGet_shape_ne (esPair_shape e.entanglement_strength) (strB ("sdc")) (by decide),
      mGet_shape_ne (cmPair_shape e.consciousness_metrics) (strB ("sdc")) (by decide),
      mGet_shape_ne (mpPair_shape e.memristor_pattern) (strB ("sdc")) (by decide),
      mGet_shape_ne (rcPair_shape e.requires_confirmation) (strB ("sdc")) (by decide),
      mGet_shape_ne (ucPair_shape e.user_context) (strB ("sdc")) (by decide)]
  simp only [option_none_or, option_or_none]
  cases hsd : e.sdc_chip_targets with
  | none => rfl
  | some l =>
    have hl : l ≠ [] := h l hsd
    have hs : sdcPair (some l) =
        [(MVal.str (strB ("sdc")), MVal.list (l.map .int))] := by
      simp only [sdcPair]
      rw [if_pos hl]
      rfl
    rw [hs, mGet_one, if_pos rfl]
    rfl

theorem mGet_tcp_mp (e : OptimizedFBIPEvent) :
    mGet e.to_compact_pairs (strB ("mp")) =
      e.memristor_pattern.map fun mp => MVal.bin (f32blob mp) := by
  unfold OptimizedFBIPEvent.to_compact_pairs
  simp only [mGet_append, mGet_man_mp]
  rw [mGet_shape_ne (freqPair_shape e.frequency_hz) (strB ("mp")) (by decide),
      mGet_shape_ne (qsPair_shape e.quantum_state) (strB ("mp")) (by decide),
      mGet_shape_ne (scPair_shape e.superposition_count) (strB ("mp")) (by decide),
      mGet_shape_ne (esPair_shape e.entanglement_strength) (strB ("mp")) (by decide),
      mGet_shape_ne (cmPair_shape e.consciousness_metrics) (strB ("mp")) (by decide),
      mGet_shape_ne (sdcPair_shape e.sdc_chip_targets) (strB ("mp")) (by decide),
      mGet_shape_ne (rcPair_shape e.requires_confirmation) (strB ("mp")) (by decide),
      mGet_shape_ne (ucPair_shape e.user_context) (strB ("mp")) (by decide)]
  simp only [option_none_or, option_or_none]
  cases e.memristor_pattern with
  | none => rfl
  | some mp =>
    rw [show mpPair (some mp) =
        [(MVal.str (strB ("mp")), MVal.bin (f32blob mp))] from rfl,
      mGet_one, if_pos rfl]
    rfl

theorem mGet_tcp_rc (e : OptimizedFBIPEvent) :
    mGet e.to_compact_pairs (strB ("rc")) =
      (if e.requires_confirmation then some (.bool true) else none) := by
  unfold OptimizedFBIPEvent.to_compact_pairs
  simp only [mGet_append, mGet_man_rc]
  rw [mGet_shape_ne (freqPair_shape e.frequency_hz) (strB ("rc")) (by decide),
      mGet_shape_ne (qsPair_shape e.quantum_state) (strB ("rc")) (by decide),
      mGet_shape_ne (scPair_shape e.superposition_count) (strB ("rc")) (by decide),
      mGet_shape_ne (esPair_shape e.entanglement_strength) (strB ("rc")) (by decide),
      mGet_shape_ne (cmPair_shape e.consciousness_metrics) (strB ("rc")) (by decide),
      mGet_shape_ne (sdcPair_shape e.sdc_chip_targets) (strB ("rc")) (by decide),
      mGet_shape_ne (mpPair_shape e.memristor_pattern) (strB ("rc")) (by decide),
      mGet_shape_ne (ucPair_shape e.user_context) (strB ("rc")) (by decide)]
  simp only [option_none_or, option_or_none]
  cases e.requires_confirmation with
  | false => rfl
  | true =>
    rw [show rcPair true = [(MVal.str (strB ("rc")), MVal.bool true)] from rfl,
      mGet_one, if_pos rfl]
    rfl

theorem mGet_tcp_uc (e : OptimizedFBIPEvent)
    (h : ∀ u, e.user_context = some u →
      u.isEmpty = false ∧ u.filter (fun p => p.1 ∈ ucAllowKeys) = u) :
    mGet e.to_compact_pairs (strB ("uc")) =
      e.user_context.map fun u => MVal.map (u.map fun p => (.str p.1, p.2)) := by
  unfold OptimizedFBIPEvent.to_compact_pairs
  simp only [mGet_append, mGet_man_uc]
  rw [mGet_shape_ne (freqPair_shape e.frequency_hz) (strB ("uc")) (by decide),
      mGet_shape_ne (qsPair_shape e.quantum_state) (strB ("uc")) (by decide),
      mGet_shape_ne (scPair_shape e.superposition_count) (strB ("uc")) (by decide),
      mGet_shape_ne (esPair_shape e.entanglement_strength) (strB ("uc")) (by decide),
      mGet_shape_ne (cmPair_shape e.consciousness_metrics) (strB ("uc")) (by decide),
      mGet_shape_ne (sdcPair_shape e.sdc_chip_targets) (strB ("uc")) (by decide),
      mGet_shape_ne (mpPair_shape e.memristor_pattern) (strB ("uc")) (by decide),
      mGet_shape_ne (rcPair_shape e.requires_confirmation) (strB ("uc")) (by decide)]
  simp only [option_none_or, option_or_none]
  cases huc : e.user_context with
  | none => rfl
  | some u =>
    obtain ⟨h1, h2⟩ := h u huc
    have hs : ucPair (some u) =
        [(MVal.str (strB ("uc")), MVal.map (u.map fun p => (.str p.1, p.2)))] := by
      simp only [ucPair]
      rw [if_neg (by rw [h1]; exact Bool.false_ne_true)]
      show (if (u.filter fun p => p.1 ∈ ucAllowKeys).isEmpty then
          ([] : List (MVal × MVal))
        else [(kS ("uc"), .map ((u.filter fun p => p.1 ∈ ucAllowKeys).map
          fun p => (.str p.1, p.2)))]) = _
      rw [h2, if_neg (by rw [h1]; exact Bool.false_ne_true)]
      rfl
    rw [hs, mGet_one, if_pos rfl]
    rfl

theorem optDecode_some {α : Type} (v : MVal) (f : MVal → Except PErr α) (d : α) :
    optDecode (some v) f d = f v := rfl

theorem optDecode_none {α : Type} (f : MVal → Except PErr α) (d : α) :
    optDecode none f d = .ok d := rfl

theorem getReq_of_mGet {ps : List (MVal × MVal)} {k : List Nat} {v : MVal}
    (h : mGet ps k = some v) : getReq ps k = .ok v := by
  unfold getReq
  rw [h]

theorem signalType_ofWire_toNat (s : SignalType) :
    SignalType.ofWire s.toNat = some s := by
  cases s <;> rfl

theorem actionType_ofWire_toNat (a : ActionType) :
    ActionType.ofWire a.toNat = some a := by
  cases a <;> rfl

theorem network_ofWire_toNat (n : ConsciousnessNetwork) :
    ConsciousnessNetwork.ofWire n.toNat = some n := by
  cases n <;> rfl

theorem priority_ofWire_toNat (p : Priority) :
    Priority.ofWire p.toNat = some p := by
  cases p <;> rfl

theorem enumOfWireE_signal (s : SignalType) :
    enumOfWireE SignalType.ofWire s.toNat = .ok s := by
  unfold enumOfWireE
  rw [signalType_ofWire_toNat]
  rfl

theorem enumOfWireE_action (a : ActionType) :
    enumOfWireE ActionType.ofWire a.toNat = .ok a := by
  unfold enumOfWireE
  rw [actionType_ofWire_toNat]
  rfl

theorem enumOfWireE_network (n : ConsciousnessNetwork) :
    enumOfWireE ConsciousnessNetwork.ofWire n.toNat = .ok n := by
  unfold enumOfWireE
  rw [network_ofWire_toNat]
  rfl

theorem enumOfWireE_priority (p : Priority) :
    enumOfWireE Priority.ofWire p.toNat = .ok p := by
  unfold enumOfWireE
  rw [priority_ofWire_toNat]
  rfl

theorem mapM_loop_strs (l : List (List Nat)) (acc : List (List Nat)) :
    List.mapM.loop asStrE (l.map MVal.str) acc = Except.ok (acc.reverse ++ l) := by
  induction l generalizing acc with
  | nil =>
    show Except.ok acc.reverse = Except.ok (acc.reverse ++ [])
    rw [List.append_nil]
  | cons x xs ih => simp [List.mapM.loop, asStrE, except_ok_bind, ih]

theorem mapM_asStrE (l : List (List Nat)) :
    (l.map MVal.str).mapM asStrE = Except.ok l := by
  simpa [List.mapM] using mapM_loop_strs l []

theorem asStrListE_strs (l : List (List Nat)) :
    asStrListE (.list (l.map .str)) = .ok l := by
  unfold asStrListE
  rw [show asListE (MVal.list (l.map .str)) = .ok (l.map .str) from rfl,
    except_ok_bind, mapM_asStrE]

theorem mapM_loop_ints (l : List Nat) (acc : List Nat) :
    List.mapM.loop asIntE (l.map MVal.int) acc = Except.ok (acc.reverse ++ l) := by
  induction l generalizing acc with
  | nil =>
    show Except.ok acc.reverse = Except.ok (acc.reverse ++ [])
    rw [List.append_nil]
  | cons x xs ih => simp [List.mapM.loop, asIntE, except_ok_bind, ih]

theorem mapM_asIntE (l : List Nat) :
    (l.map MVal.int).mapM asIntE = Except.ok l := by
  simpa [List.mapM] using mapM_loop_ints l []

theorem asNatListE_ints (l : List Nat) :
    asNatListE (.list (l.map .int)) = .ok l := by
  unfold asNatListE
  rw [show asListE (MVal.list (l.map .int)) = .ok (l.map .int) from rfl,
    except_ok_bind, mapM_asIntE]

theorem mapM_loop_strPairs (ps : List (List Nat × MVal))
    (acc : List (List Nat × MVal)) :
    List.mapM.loop (fun p => do
      let k ← asStrE p.1
      pure (k, p.2)) (ps.map fun p => (MVal.str p.1, p.2)) acc =
      Except.ok (acc.reverse ++ ps) := by
  induction ps generalizing acc with
  | nil =>
    show Except.ok acc.reverse = Except.ok (acc.reverse ++ [])
    rw [List.append_nil]
  | cons p ps ih =>
    obtain ⟨a, b⟩ := p
    show List.mapM.loop (fun p => do
        let k ← asStrE p.1
        pure (k, p.2)) (ps.map fun p => (MVal.str p.1, p.2)) ((a, b) :: acc) =
      Except.ok (acc.reverse ++ (a, b) :: ps)
    rw [ih]
    simp

theorem asStrMapE_pairs (ps : List (List Nat × MVal)) :
    asStrMapE (.map (ps.map fun p => (MVal.str p.1, p.2))) = .ok ps := by
  unfold asStrMapE
  rw [show asMapE (MVal.map (ps.map fun p => (MVal.str p.1, p.2))) =
      .ok (ps.map fun p => (MVal.str p.1, p.2)) from rfl, except_ok_bind]
  simpa [List.mapM] using mapM_loop_strPairs ps []

theorem mapM_loop_natNum (na : List (Nat × ℚ)) (acc : List (Nat × ℚ)) :
    List.mapM.loop (fun p => do
      let k ← asIntE p.1
      let q ← asNumE p.2
      pure (k, q)) (na.map fun p => (MVal.int p.1, MVal.float (roundDec 3 p.2))) acc =
      Except.ok (acc.reverse ++ na.map fun p => (p.1, roundDec 3 p.2)) := by
  induction na generalizing acc with
  | nil =>
    show Except.ok acc.reverse = Except.ok (acc.reverse ++ [])
    rw [List.append_nil]
  | cons p ps ih =>
    obtain ⟨a, b⟩ := p
    show List.mapM.loop (fun p => do
        let k ← asIntE p.1
        let q ← asNumE p.2
        pure (k, q))
      (ps.map fun p => (MVal.int p.1, MVal.float (roundDec 3 p.2)))
      ((a, roundDec 3 b) :: acc) =
      Except.ok (acc.reverse ++ (a, roundDec 3 b) ::
        ps.map fun p => (p.1, roundDec 3 p.2))
    rw [ih]
    simp

theorem asNatNumMapE_roundDec (na : List (Nat × ℚ)) :
    asNatNumMapE (.map (na.map fun p => (MVal.int p.1, MVal.float (roundDec 3 p.2)))) =
      .ok (na.map fun p => (p.1, roundDec 3 p.2)) := by
  unfold asNatNumMapE
  rw [show asMapE (MVal.map (na.map fun p =>
      (MVal.int p.1, MVal.float (roundDec 3 p.2)))) =
      .ok (na.map fun p => (MVal.int p.1, MVal.float (roundDec 3 p.2))) from rfl,
    except_ok_bind]
  simpa [List.mapM] using mapM_loop_natNum na []

theorem cm_from_to (cm : ConsciousnessMetrics)
    (h1 : roundDec 3 cm.consciousness_level = cm.consciousness_level)
    (h2 : roundDec 2 cm.energy_cost = cm.energy_cost)
    (h3 : roundDec 3 cm.field_coherence = cm.field_coherence)
    (h4 : cm.network_allocation.map (fun p => (p.1, roundDec 3 p.2)) =
      cm.network_allocation) :
    ConsciousnessMetrics.from_compact_dict cm.to_compact_dict = .ok cm := by
  have step : ConsciousnessMetrics.from_compact_dict cm.to_compact_dict =
      (asNatNumMapE (MVal.map (cm.network_allocation.map fun p =>
        (MVal.int p.1, MVal.float (roundDec 3 p.2))))) >>= fun na =>
        Except.ok
          { consciousness_level := roundDec 3 cm.consciousness_level,
            energy_cost := roundDec 2 cm.energy_cost,
            network_allocation := na,
            field_coherence := roundDec 3 cm.field_coherence,
            metabolic_state := cm.metabolic_state } := by
    with_unfolding_all rfl
  rw [step, asNatNumMapE_roundDec, except_ok_bind, h1, h2, h3, h4]

theorem qs_decode (e : OptimizedFBIPEvent) (hqs : e.quantum_state = none) :
    optDecode (mGet e.to_compact_pairs (strB ("qs")))
      (fun qv => (QuantumState.from_compact_dict qv).map some) none =
      .ok e.quantum_state := by
  rw [mGet_tcp_qs, hqs]
  rfl

theorem cm_decode (e : OptimizedFBIPEvent)
    (hcm : ∀ cm, e.consciousness_metrics = some cm →
      roundDec 3 cm.consciousness_level = cm.consciousness_level ∧
      roundDec 2 cm.energy_cost = cm.energy_cost ∧
      roundDec 3 cm.field_coherence = cm.field_coherence ∧
      cm.network_allocation.map (fun p => (p.1, roundDec 3 p.2)) =
        cm.network_allocation) :
    optDecode (mGet e.to_compact_pairs (strB ("cm")))
      (fun cv => (ConsciousnessMetrics.from_compact_dict cv).map some) none =
      .ok e.consciousness_metrics := by
  rw [mGet_tcp_cm]
  cases hc : e.consciousness_metrics with
  | none => rfl
  | some cm =>
    obtain ⟨h1, h2, h3, h4⟩ := hcm cm hc
    show (ConsciousnessMetrics.from_compact_dict cm.to_compact_dict).map some =
      .ok (some cm)
    rw [cm_from_to cm h1 h2 h3 h4]
    rfl

theorem mp_decode (e : OptimizedFBIPEvent) (hmp : e.memristor_pattern = none) :
    optDecode (mGet e.to_compact_pairs (strB ("mp")))
      (fun mv => (asBinE mv).map fun b => some (f32unblob b)) none =
      .ok e.memristor_pattern := by
  rw [mGet_tcp_mp, hmp]
  rfl

theorem v_decode (e : OptimizedFBIPEvent) :
    optDecode (mGet e.to_compact_pairs (strB ("v"))) asIntE FBIP_VERSION =
      .ok e.version := by
  rw [mGet_tcp_v]
  rfl

theorem f_decode (e : OptimizedFBIPEvent)
    (hf : ∀ q, e.frequency_hz = some q → roundDec 1 q = q) :
    optDecode (mGet e.to_compact_pairs (strB ("f")))
      (fun fv => (asNumE fv).map some) none = .ok e.frequency_hz := by
  rw [mGet_tcp_f]
  cases hq : e.frequency_hz with
  | none => rfl
  | some q =>
    show (asNumE (MVal.float (roundDec 1 q))).map some = .ok (some q)
    rw [hf q hq]
    rfl

theorem sc_decode (e : OptimizedFBIPEvent) :
    optDecode (mGet e.to_compact_pairs (strB ("sc"))) asIntE 0 =
      .ok e.superposition_count := by
  rw [mGet_tcp_sc]
  by_cases h : e.superposition_count > 0
  · rw [if_pos h]
    rfl
  · rw [if_neg h]
    have h0 : e.superposition_count = 0 := by omega
    rw [h0]
    rfl

theorem es_decode (e : OptimizedFBIPEvent)
    (h0 : 0 ≤ e.entanglement_strength)
    (hr : roundDec 3 e.entanglement_strength = e.entanglement_strength) :
    optDecode (mGet e.to_compact_pairs (strB ("es"))) asNumE (mkRat 0 1) =
      .ok e.entanglement_strength := by
  rw [mGet_tcp_es]
  by_cases h : e.entanglement_strength > 0
  · rw [if_pos h]
    show Except.ok (roundDec 3 e.entanglement_strength) = _
    rw [hr]
  · rw [if_neg h]
    have hz : e.entanglement_strength = 0 := le_antisymm (not_lt.mp h) h0
    rw [hz]
    show Except.ok (mkRat 0 1) = Except.ok 0
    with_unfolding_all rfl

theorem sdc_decode (e : OptimizedFBIPEvent)
    (h : ∀ l, e.sdc_chip_targets = some l → l ≠ []) :
    optDecode (mGet e.to_compact_pairs (strB ("sdc")))
      (fun sv => (asNatListE sv).map some) none = .ok e.sdc_chip_targets := by
  rw [mGet_tcp_sdc e h]
  cases e.sdc_chip_targets with
  | none => rfl
  | some l =>
    show (asNatListE (MVal.list (l.map .int))).map some = .ok (some l)
    rw [asNatListE_ints]
    rfl

theorem uc_decode (e : OptimizedFBIPEvent)
    (h : ∀ u, e.user_context = some u →
      u.isEmpty = false ∧ u.filter (fun p => p.1 ∈ ucAllowKeys) = u) :
    optDecode (mGet e.to_compact_pairs (strB ("uc")))
      (fun uv => (asStrMapE uv).map some) none = .ok e.user_context := by
  rw [mGet_tcp_uc e h]
  cases e.user_context with
  | none => rfl
  | some u =>
    show (asStrMapE (MVal.map (u.map fun p => (MVal.str p.1, p.2)))).map some =
      .ok (some u)
    rw [asStrMapE_pairs]
    rfl

theorem rc_decode (e : OptimizedFBIPEvent) :
    optDecode (mGet e.to_compact_pairs (strB ("rc"))) asBoolE false =
      .ok e.requires_confirmation := by
  rw [mGet_tcp_rc]
  cases e.requires_confirmation
  · rfl
  · rfl

/-- The event a successful decode of `to_compact_dict e` must produce: `e`
with the receiver's own session context substituted (the sender's
`session_context` is never transmitted). -/
def expectedRT (e : OptimizedFBIPEvent) (sid : List Nat) : OptimizedFBIPEvent :=
  { e with session_context := some [(strB ("session_id"), MVal.str sid)] }

/-- `_reconstruct_event_from_dict ∘ to_compact_dict` restores every field of
an event whose float fields are stable under the compact dict's decimal
rounding and whose quantum-state / memristor payloads are absent (the
float32-blob fields), up to the session-context substitution. -/
theorem asStrE_str (s : List Nat) : asStrE (.str s) = .ok s := rfl

theorem asNumE_float (q : ℚ) : asNumE (.float q) = .ok q := rfl

theorem asIntE_int (n : Nat) : asIntE (.int n) = .ok n := rfl

theorem reconstruct_to_compact (e : OptimizedFBIPEvent) (sid : List Nat)
    (hi : roundDec 3 e.intensity = e.intensity)
    (heb : roundDec 2 e.energy_budget = e.energy_budget)
    (hf : ∀ q, e.frequency_hz = some q → roundDec 1 q = q)
    (hes0 : 0 ≤ e.entanglement_strength)
    (hes : roundDec 3 e.entanglement_strength = e.entanglement_strength)
    (hqs : e.quantum_state = none)
    (hmp : e.memristor_pattern = none)
    (hsdc : ∀ l, e.sdc_chip_targets = some l → l ≠ [])
    (hcm : ∀ cm, e.consciousness_metrics = some cm →
      roundDec 3 cm.consciousness_level = cm.consciousness_level ∧
      roundDec 2 cm.energy_cost = cm.energy_cost ∧
      roundDec 3 cm.field_coherence = cm.field_coherence ∧
      cm.network_allocation.map (fun p => (p.1, roundDec 3 p.2)) =
        cm.network_allocation)
    (huc : ∀ u, e.user_context = some u →
      u.isEmpty = false ∧ u.filter (fun p => p.1 ∈ ucAllowKeys) = u) :
    FBIPProtocolV3.reconstruct_event_from_dict sid e.to_compact_dict =
      .ok (expectedRT e sid) := by
  unfold FBIPProtocolV3.reconstruct_event_from_dict
  rw [show asMapE e.to_compact_dict = Except.ok e.to_compact_pairs from rfl,
    except_ok_bind]
  simp only [qs_decode e hqs, cm_decode e hcm, mp_decode e hmp, v_decode,
    f_decode e hf, sc_decode, es_decode e hes0 hes, sdc_decode e hsdc,
    uc_decode e huc, rc_decode,
    getReq_of_mGet (mGet_tcp_id e), getReq_of_mGet (mGet_tcp_ts e),
    getReq_of_mGet (mGet_tcp_st e), getReq_of_mGet (mGet_tcp_i e),
    getReq_of_mGet (mGet_tcp_d e), getReq_of_mGet (mGet_tcp_at e),
    getReq_of_mGet (mGet_tcp_tn e), getReq_of_mGet (mGet_tcp_nodes e),
    getReq_of_mGet (mGet_tcp_params e), getReq_of_mGet (mGet_tcp_p e),
    getReq_of_mGet (mGet_tcp_eb e),
    except_ok_bind, asStrE_str, asNumE_float, asIntE_int,
    enumOfWireE_signal, enumOfWireE_action, enumOfWireE_network,
    enumOfWireE_priority, asStrListE_strs, asStrMapE_pairs, hi, heb]
  unfold expectedRT
  rw [hqs, hmp]
  rfl

theorem exceptIsOk_ok {ε α : Type} (x : Except ε α) (h : exceptIsOk x = true) :
    ∃ a, x = .ok a := by
  cases x with
  | ok a => exact ⟨a, rfl⟩
  | error e => simp [exceptIsOk] at h

theorem serialize_event_msgpack_ok (p : FBIPProtocolV3) (e : OptimizedFBIPEvent)
    (t : ℚ) (j : List Nat) (hj : jsonVal e.to_compact_dict = .ok j) :
    (p.serialize_event e (some .MSGPACK) t).1 =
      .ok (FBIPProtocolV3.serialize_msgpack e) := by
  have h1 : p.serialize_event e (some .MSGPACK) t =
      match (jsonVal e.to_compact_dict).map List.length with
      | .ok original_size =>
        (.ok (FBIPProtocolV3.serialize_msgpack e),
         { p with
           stats := (p.stats.record_serialization t original_size
             (FBIPProtocolV3.serialize_msgpack e).length) })
      | .error err => (.error err, { p with stats := p.stats.record_error }) := rfl
  rw [h1, hj]
  rfl

theorem serialize_event_binary_ok (p : FBIPProtocolV3) (e : OptimizedFBIPEvent)
    (t : ℚ) (j : List Nat) (hj : jsonVal e.to_compact_dict = .ok j) :
    (p.serialize_event e (some .BINARY) t).1 =
      .ok (FBIPProtocolV3.serialize_binary e) := by
  have h1 : p.serialize_event e (some .BINARY) t =
      match (jsonVal e.to_compact_dict).map List.length with
      | .ok original_size =>
        (.ok (FBIPProtocolV3.serialize_binary e),
         { p with
           stats := (p.stats.record_serialization t original_size
             (FBIPProtocolV3.serialize_binary e).length) })
      | .error err => (.error err, { p with stats := p.stats.record_error }) := rfl
  rw [h1, hj]
  rfl

theorem deserialize_event_dispatch_msgpack (q : FBIPProtocolV3) (data : List Nat)
    (t : ℚ) (r : Except PErr OptimizedFBIPEvent)
    (hd : FBIPProtocolV3.detect_format data = .ok .MSGPACK)
    (hm : FBIPProtocolV3.deserialize_msgpack q.session_id data = r) :
    (q.deserialize_event data t).1 = r := by
  unfold FBIPProtocolV3.deserialize_event
  rw [hd, hm]
  cases r <;> rfl

theorem deserialize_event_dispatch_binary (q : FBIPProtocolV3) (data : List Nat)
    (t : ℚ) (r : Except PErr OptimizedFBIPEvent)
    (hd : FBIPProtocolV3.detect_format data = .ok .BINARY)
    (hb : FBIPProtocolV3.deserialize_binary q.session_id data = r) :
    (q.deserialize_event data t).1 = r := by
  unfold FBIPProtocolV3.deserialize_event
  rw [hd, hb]
  cases r <;> rfl

theorem deserialize_msgpack_rt (sid : List Nat) (e : OptimizedFBIPEvent)
    (hwf : wfV e.to_compact_dict = true)
    (hi : roundDec 3 e.intensity = e.intensity)
    (heb : roundDec 2 e.energy_budget = e.energy_budget)
    (hf : ∀ q, e.frequency_hz = some q → roundDec 1 q = q)
    (hes0 : 0 ≤ e.entanglement_strength)
    (hes : roundDec 3 e.entanglement_strength = e.entanglement_strength)
    (hqs : e.quantum_state = none)
    (hmp : e.memristor_pattern = none)
    (hsdc : ∀ l, e.sdc_chip_targets = some l → l ≠ [])
    (hcm : ∀ cm, e.consciousness_metrics = some cm →
      roundDec 3 cm.consciousness_level = cm.consciousness_level ∧
      roundDec 2 cm.energy_cost = cm.energy_cost ∧
      roundDec 3 cm.field_coherence = cm.field_coherence ∧
      cm.network_allocation.map (fun p => (p.1, roundDec 3 p.2)) =
        cm.network_allocation)
    (huc : ∀ u, e.user_context = some u →
      u.isEmpty = false ∧ u.filter (fun p => p.1 ∈ ucAllowKeys) = u) :
    FBIPProtocolV3.deserialize_msgpack sid (FBIPProtocolV3.serialize_msgpack e) =
      .ok (expectedRT e sid) := by
  unfold FBIPProtocolV3.deserialize_msgpack FBIPProtocolV3.serialize_msgpack
  rw [unpackTop_packVal e.to_compact_dict hwf,
    show (Except.ok e.to_compact_dict : Except (List Nat) MVal).mapError
      PErr.msgpackError = (.ok e.to_compact_dict : Except PErr MVal) from rfl,
    except_ok_bind]
  exact reconstruct_to_compact e sid hi heb hf hes0 hes hqs hmp hsdc hcm huc

set_option maxHeartbeats 2000000 in
theorem deserialize_binary_rt (sid : List Nat) (e : OptimizedFBIPEvent)
    (hwf : wfV e.to_compact_dict = true)
    (hlen : (packVal e.to_compact_dict).length < 2 ^ 32)
    (hi : roundDec 3 e.intensity = e.intensity)
    (heb : roundDec 2 e.energy_budget = e.energy_budget)
    (hf : ∀ q, e.frequency_hz = some q → roundDec 1 q = q)
    (hes0 : 0 ≤ e.entanglement_strength)
    (hes : roundDec 3 e.entanglement_strength = e.entanglement_strength)
    (hqs : e.quantum_state = none)
    (hmp : e.memristor_pattern = none)
    (hsdc : ∀ l, e.sdc_chip_targets = some l → l ≠ [])
    (hcm : ∀ cm, e.consciousness_metrics = some cm →
      roundDec 3 cm.consciousness_level = cm.consciousness_level ∧
      roundDec 2 cm.energy_cost = cm.energy_cost ∧
      roundDec 3 cm.field_coherence = cm.field_coherence ∧
      cm.network_allocation.map (fun p => (p.1, roundDec 3 p.2)) =
        cm.network_allocation)
    (huc : ∀ u, e.user_context = some u →
      u.isEmpty = false ∧ u.filter (fun p => p.1 ∈ ucAllowKeys) = u) :
    FBIPProtocolV3.deserialize_binary sid (FBIPProtocolV3.serialize_binary e) =
      .ok (expectedRT e sid) := by
  have hH : FBIPProtocolV3.serialize_binary e =
      PacketHeader.pack
        { packet_type := PacketType.SINGLE_EVENT, flags := 0,
          data_length := (packVal e.to_compact_dict).length,
          checksum := crc32 (packVal e.to_compact_dict) } ++
        packVal e.to_compact_dict := rfl
  unfold FBIPProtocolV3.deserialize_binary
  rw [hH]
  rw [unpack_header_pack
      { packet_type := PacketType.SINGLE_EVENT, flags := 0,
        data_length := (packVal e.to_compact_dict).length,
        checksum := crc32 (packVal e.to_compact_dict) }
      (packVal e.to_compact_dict) hlen (crc32_lt _)]
  rw [except_ok_bind]
  have hdrop : (PacketHeader.pack
      { packet_type := PacketType.SINGLE_EVENT, flags := 0,
        data_length := (packVal e.to_compact_dict).length,
        checksum := crc32 (packVal e.to_compact_dict) } ++
      packVal e.to_compact_dict).drop PacketHeader.HEADER_SIZE =
      packVal e.to_compact_dict := drop16_header_pack _ _
  simp only []
  rw [hdrop]
  rw [if_neg (show ¬ (crc32 (packVal e.to_compact_dict) ≠
    crc32 (packVal e.to_compact_dict)) from fun hne => hne rfl)]
  rw [unpackTop_packVal e.to_compact_dict hwf,
    show (Except.ok e.to_compact_dict : Except (List Nat) MVal).mapError
      PErr.msgpackError = (.ok e.to_compact_dict : Except PErr MVal) from rfl,
    except_ok_bind]
  exact reconstruct_to_compact e sid hi heb hf hes0 hes hqs hmp hsdc hcm huc

theorem detect_format_of_framed (h : PacketHeader) (payload : List Nat) :
    FBIPProtocolV3.detect_format (PacketHeader.pack h ++ payload) = .ok .BINARY := by
  apply detect_format_of_magic
  · rw [show PacketHeader.pack h ++ payload =
      FBIP_MAGIC_BYTES ++ (beBytes 2 FBIP_VERSION ++ [h.packet_type, h.flags] ++
        beBytes 4 h.data_length ++ beBytes 4 h.checksum ++ payload) by
      simp [PacketHeader.pack]]
    exact List.take_left' rfl
  · rw [List.length_append, length_header_pack]
    omega

/-! ## Claim C1 -/

def c1protocol : FBIPProtocolV3 := FBIPProtocolV3.init (strB ("sess")) .BINARY

def sd1 : SignalData :=
  { SignalData.empty with
    signal := some (strB ("alpha_peak")),
    intensity := some (mkRat 1234 10000),
    duration_ms := some 400 }

def as1 : ActionSpec := { ActionSpec.empty with priority := some 8 }

def c1event : OptimizedFBIPEvent :=
  match (c1protocol.create_event sd1 as1 none (mkRat 0 1) 0 [] [] []).1 with
  | .ok e => e
  | .error _ => sampleEvent

def c1bytes : List Nat :=
  match (c1protocol.serialize_event c1event (some .MSGPACK) (mkRat 0 1)).1 with
  | .ok b => b
  | .error _ => []

def c1decoded : Option OptimizedFBIPEvent :=
  ((c1protocol.deserialize_event c1bytes (mkRat 0 1)).1).toOption

/-- Claim C1 (counterexample): an event created with intensity `0.1234`
round-trips through the Raw-Compact codec to an intensity that differs
from the original by more than the claimed epsilon 1e-5: `to_compact_dict`
rounds intensity to three decimals (`0.123`) before packing, so the claimed
`decode(encode(E,F)) == E` within 1e-5 fails on the intensity field. -/
theorem c1_counterexample :
    c1event.intensity = mkRat 617 5000 ∧
    (c1decoded.map fun e =>
      decide (mkRat 1 100000 < |e.intensity - c1event.intensity|)) =
      some true := by
  refine ⟨?_, ?_⟩ <;> with_unfolding_all rfl

/-- Claim C1 (amended): round-trip equality through the protocol facade
holds for the Raw-Compact (MSGPACK) and Compact-Binary (BINARY) formats —
up to the session-context substitution (`expectedRT`) — exactly on every
event whose float fields are stable under the compact dict's decimal
rounding (3 decimals for intensity / entanglement / metric fractions, 2
for energy fields, 1 for frequency), whose float32-blob payloads
(quantum_state, memristor_pattern) are absent, whose optional lists are
not present-but-empty, and whose values are msgpack- and JSON-serializable
(`wfV`, `jsonVal` ok — the latter required by the facade's size-estimate
step). Without the rounding-stability hypotheses the round trip is only
approximate, and beyond 1e-5 (see the counterexample). -/
theorem c1_round_trip_amended (p q : FBIPProtocolV3) (e : OptimizedFBIPEvent)
    (t1 t2 : ℚ) (j : List Nat)
    (hwf : wfV e.to_compact_dict = true)
    (hjson : jsonVal e.to_compact_dict = .ok j)
    (hlen : (FBIPProtocolV3.serialize_msgpack e).length < 2 ^ 32)
    (hi : roundDec 3 e.intensity = e.intensity)
    (heb : roundDec 2 e.energy_budget = e.energy_budget)
    (hf : ∀ q, e.frequency_hz = some q → roundDec 1 q = q)
    (hes0 : 0 ≤ e.entanglement_strength)
    (hes : roundDec 3 e.entanglement_strength = e.entanglement_strength)
    (hqs : e.quantum_state = none)
    (hmp : e.memristor_pattern = none)
    (hsdc : ∀ l, e.sdc_chip_targets = some l → l ≠ [])
    (hcm : ∀ cm, e.consciousness_metrics = some cm →
      roundDec 3 cm.consciousness_level = cm.consciousness_level ∧
      roundDec 2 cm.energy_cost = cm.energy_cost ∧
      roundDec 3 cm.field_coherence = cm.field_coherence ∧
      cm.network_allocation.map (fun p => (p.1, roundDec 3 p.2)) =
        cm.network_allocation)
    (huc : ∀ u, e.user_context = some u →
      u.isEmpty = false ∧ u.filter (fun p => p.1 ∈ ucAllowKeys) = u) :
    ((p.serialize_event e (some .MSGPACK) t1).1 =
        .ok (FBIPProtocolV3.serialize_msgpack e) ∧
      (q.deserialize_event (FBIPProtocolV3.serialize_msgpack e) t2).1 =
        .ok (expectedRT e q.session_id)) ∧
    ((p.serialize_event e (some .BINARY) t1).1 =
        .ok (FBIPProtocolV3.serialize_binary e) ∧
      (q.deserialize_event (FBIPProtocolV3.serialize_binary e) t2).1 =
        .ok (expectedRT e q.session_id)) := by
  refine ⟨⟨serialize_event_msgpack_ok p e t1 j hjson, ?_⟩,
          ⟨serialize_event_binary_ok p e t1 j hjson, ?_⟩⟩
  · exact deserialize_event_dispatch_msgpack q _ t2 _
      (detect_format_packed_map e.to_compact_pairs (twelve_le_to_compact_pairs e))
      (deserialize_msgpack_rt q.session_id e hwf hi heb hf hes0 hes hqs hmp
        hsdc hcm huc)
  · exact deserialize_event_dispatch_binary q _ t2 _
      (detect_format_of_framed
        { packet_type := PacketType.SINGLE_EVENT, flags := 0,
          data_length := (packVal e.to_compact_dict).length,
          checksum := crc32 (packVal e.to_compact_dict) }
        (packVal e.to_compact_dict))
      (deserialize_binary_rt q.session_id e hwf hlen hi heb hf hes0 hes hqs hmp
        hsdc hcm huc)

def c1json : List Nat :=
  match jsonVal sampleEvent.to_compact_dict with
  | .ok b => b
  | .error _ => []

theorem c1_round_trip_amended_witness :
    (c1protocol.serialize_event sampleEvent (some .MSGPACK) (mkRat 0 1)).1 =
      .ok (FBIPProtocolV3.serialize_msgpack sampleEvent) ∧
    (c1protocol.deserialize_event (FBIPProtocolV3.serialize_msgpack sampleEvent)
      (mkRat 0 1)).1 = .ok (expectedRT sampleEvent c1protocol.session_id) := by
  have h := c1_round_trip_amended c1protocol c1protocol sampleEvent
    (mkRat 0 1) (mkRat 0 1) c1json
    (by with_unfolding_all rfl)
    (by with_unfolding_all rfl)
    (of_decide_eq_true (by with_unfolding_all rfl))
    (by with_unfolding_all rfl)
    (by with_unfolding_all rfl)
    (fun q h => Option.noConfusion h)
    (of_decide_eq_true (by with_unfolding_all rfl))
    (by with_unfolding_all rfl)
    rfl
    rfl
    (fun l h => Option.noConfusion h)
    (fun cm h => Option.noConfusion h)
    (fun u h => Option.noConfusion h)
  exact h.1

/-! ## Claim C5 -/

theorem unpackTop_cons78 (rest : List Nat) :
    unpackTop (0x78 :: 0x9c :: rest) = .error (strB ("msgpack extra data")) := by
  show (match unpackVal (2 * (0x78 :: 0x9c :: rest).length + 4)
      (0x78 :: 0x9c :: rest) with
    | some (v, []) => (Except.ok v : Except (List Nat) MVal)
    | some (_, _ :: _) => Except.error (strB ("msgpack extra data"))
    | none => Except.error (strB ("msgpack unpack failed"))) =
    Except.error (strB ("msgpack extra data"))
  rw [show 2 * (0x78 :: 0x9c :: rest).length + 4 = (2 * rest.length + 7) + 1 from by
    simp [List.length_cons]
    omega]
  rw [unpack_step_fixint (2 * rest.length + 7) 0x78 (0x9c :: rest) (by norm_num)]

theorem serialize_compressed_le (T : Nat) (e : OptimizedFBIPEvent)
    (h : ¬ (FBIPProtocolV3.serialize_msgpack e).length > T) :
    FBIPProtocolV3.serialize_compressed T e = FBIPProtocolV3.serialize_msgpack e := by
  unfold FBIPProtocolV3.serialize_compressed
  simp only []
  rw [if_neg h]

theorem serialize_compressed_gt (T : Nat) (e : OptimizedFBIPEvent)
    (h : (FBIPProtocolV3.serialize_msgpack e).length > T) :
    FBIPProtocolV3.serialize_compressed T e =
      PacketHeader.pack
        { packet_type := PacketType.SINGLE_EVENT, flags := PacketFlags.COMPRESSED,
          data_length := (zlibCompress (FBIPProtocolV3.serialize_msgpack e)).length,
          checksum := crc32 (zlibCompress (FBIPProtocolV3.serialize_msgpack e)) } ++
      zlibCompress (FBIPProtocolV3.serialize_msgpack e) := by
  unfold FBIPProtocolV3.serialize_compressed
  simp only []
  rw [if_pos h]

set_option maxHeartbeats 2000000 in
theorem deserialize_binary_zlib (sid : List Nat) (e : OptimizedFBIPEvent)
    (hzlen : (zlibCompress (FBIPProtocolV3.serialize_msgpack e)).length < 2 ^ 32) :
    FBIPProtocolV3.deserialize_binary sid
      (PacketHeader.pack
        { packet_type := PacketType.SINGLE_EVENT, flags := PacketFlags.COMPRESSED,
          data_length := (zlibCompress (FBIPProtocolV3.serialize_msgpack e)).length,
          checksum := crc32 (zlibCompress (FBIPProtocolV3.serialize_msgpack e)) } ++
       zlibCompress (FBIPProtocolV3.serialize_msgpack e)) =
      .error (.msgpackError (strB ("msgpack extra data"))) := by
  unfold FBIPProtocolV3.deserialize_binary
  rw [unpack_header_pack
      { packet_type := PacketType.SINGLE_EVENT, flags := PacketFlags.COMPRESSED,
        data_length := (zlibCompress (FBIPProtocolV3.serialize_msgpack e)).length,
        checksum := crc32 (zlibCompress (FBIPProtocolV3.serialize_msgpack e)) }
      (zlibCompress (FBIPProtocolV3.serialize_msgpack e)) hzlen (crc32_lt _)]
  rw [except_ok_bind]
  have hdrop : (PacketHeader.pack
      { packet_type := PacketType.SINGLE_EVENT, flags := PacketFlags.COMPRESSED,
        data_length := (zlibCompress (FBIPProtocolV3.serialize_msgpack e)).length,
        checksum := crc32 (zlibCompress (FBIPProtocolV3.serialize_msgpack e)) } ++
      zlibCompress (FBIPProtocolV3.serialize_msgpack e)).drop
        PacketHeader.HEADER_SIZE =
      zlibCompress (FBIPProtocolV3.serialize_msgpack e) := drop16_header_pack _ _
  simp only []
  rw [hdrop]
  rw [if_neg (show ¬ (crc32 (zlibCompress (FBIPProtocolV3.serialize_msgpack e)) ≠
    crc32 (zlibCompress (FBIPProtocolV3.serialize_msgpack e))) from
    fun hne => hne rfl)]
  rw [show unpackTop (zlibCompress (FBIPProtocolV3.serialize_msgpack e)) =
    Except.error (strB ("msgpack extra data")) from unpackTop_cons78 _]
  rfl

/-- Claim C5 (counterexample): with the default threshold, a small event's
Compressed-codec output is the raw msgpack bytes — no frame at all, hence
no header in which a cleared Compressed flag could be carried: the spec's
"a payload of size ≤ T is framed with the Compressed flag clear" fails. -/
theorem c5_counterexample :
    FBIPProtocolV3.serialize_compressed COMPRESSION_THRESHOLD sampleEvent =
      FBIPProtocolV3.serialize_msgpack sampleEvent ∧
    (FBIPProtocolV3.serialize_compressed COMPRESSION_THRESHOLD
      sampleEvent).take 4 ≠ FBIP_MAGIC_BYTES := by
  refine ⟨by with_unfolding_all rfl, ?_⟩
  exact of_decide_eq_true (by with_unfolding_all rfl)

/-- Claim C5 (amended): with threshold `T`, a payload of size ≤ `T` is
emitted **unframed** (raw msgpack) — it still round-trips through the
facade because the detector classifies it as Raw-Compact; a payload of
size > `T` is framed with the Compressed flag set **unconditionally**
(the source never compares compressed and raw sizes), and its round trip
is **broken**: the detector sees the magic bytes, routes the packet to the
Compact-Binary decoder, and msgpack fails on the zlib stream ("extra
data"). -/
theorem c5_threshold_amended (T : Nat) (q : FBIPProtocolV3)
    (e : OptimizedFBIPEvent) (t2 : ℚ)
    (hwf : wfV e.to_compact_dict = true)
    (hzlen : (zlibCompress (FBIPProtocolV3.serialize_msgpack e)).length < 2 ^ 32)
    (hi : roundDec 3 e.intensity = e.intensity)
    (heb : roundDec 2 e.energy_budget = e.energy_budget)
    (hf : ∀ q, e.frequency_hz = some q → roundDec 1 q = q)
    (hes0 : 0 ≤ e.entanglement_strength)
    (hes : roundDec 3 e.entanglement_strength = e.entanglement_strength)
    (hqs : e.quantum_state = none)
    (hmp : e.memristor_pattern = none)
    (hsdc : ∀ l, e.sdc_chip_targets = some l → l ≠ [])
    (hcm : ∀ cm, e.consciousness_metrics = some cm →
      roundDec 3 cm.consciousness_level = cm.consciousness_level ∧
      roundDec 2 cm.energy_cost = cm.energy_cost ∧
      roundDec 3 cm.field_coherence = cm.field_coherence ∧
      cm.network_allocation.map (fun p => (p.1, roundDec 3 p.2)) =
        cm.network_allocation)
    (huc : ∀ u, e.user_context = some u →
      u.isEmpty = false ∧ u.filter (fun p => p.1 ∈ ucAllowKeys) = u) :
    (¬ (FBIPProtocolV3.serialize_msgpack e).length > T →
      FBIPProtocolV3.serialize_compressed T e =
        FBIPProtocolV3.serialize_msgpack e ∧
      (q.deserialize_event (FBIPProtocolV3.serialize_compressed T e) t2).1 =
        .ok (expectedRT e q.session_id)) ∧
    ((FBIPProtocolV3.serialize_msgpack e).length > T →
      FBIPProtocolV3.serialize_compressed T e =
        PacketHeader.pack
          { packet_type := PacketType.SINGLE_EVENT,
            flags := PacketFlags.COMPRESSED,
            data_length :=
              (zlibCompress (FBIPProtocolV3.serialize_msgpack e)).length,
            checksum :=
              crc32 (zlibCompress (FBIPProtocolV3.serialize_msgpack e)) } ++
        zlibCompress (FBIPProtocolV3.serialize_msgpack e) ∧
      PacketFlags.COMPRESSED = 1 ∧
      (q.deserialize_event (FBIPProtocolV3.serialize_compressed T e) t2).1 =
        .error (.msgpackError (strB ("msgpack extra data")))) := by
  constructor
  · intro hle
    have heq := serialize_compressed_le T e hle
    refine ⟨heq, ?_⟩
    rw [heq]
    exact deserialize_event_dispatch_msgpack q _ t2 _
      (detect_format_packed_map e.to_compact_pairs (twelve_le_to_compact_pairs e))
      (deserialize_msgpack_rt q.session_id e hwf hi heb hf hes0 hes hqs hmp
        hsdc hcm huc)
  · intro hgt
    have heq := serialize_compressed_gt T e hgt
    refine ⟨heq, rfl, ?_⟩
    rw [heq]
    exact deserialize_event_dispatch_binary q _ t2 _
      (detect_format_of_framed _ _)
      (deserialize_binary_zlib q.session_id e hzlen)

theorem c5_threshold_amended_witness :
    (FBIPProtocolV3.serialize_compressed COMPRESSION_THRESHOLD sampleEvent =
      FBIPProtocolV3.serialize_msgpack sampleEvent ∧
     (c1protocol.deserialize_event
       (FBIPProtocolV3.serialize_compressed COMPRESSION_THRESHOLD sampleEvent)
       (mkRat 0 1)).1 = .ok (expectedRT sampleEvent c1protocol.session_id)) ∧
    (c1protocol.deserialize_event
      (FBIPProtocolV3.serialize_compressed 0 sampleEvent) (mkRat 0 1)).1 =
      .error (.msgpackError (strB ("msgpack extra data"))) := by
  have h1 := c5_threshold_amended COMPRESSION_THRESHOLD c1protocol sampleEvent
    (mkRat 0 1)
    (by with_unfolding_all rfl)
    (of_decide_eq_true (by with_unfolding_all rfl))
    (by with_unfolding_all rfl)
    (by with_unfolding_all rfl)
    (fun q h => Option.noConfusion h)
    (of_decide_eq_true (by with_unfolding_all rfl))
    (by with_unfolding_all rfl)
    rfl
    rfl
    (fun l h => Option.noConfusion h)
    (fun cm h => Option.noConfusion h)
    (fun u h => Option.noConfusion h)
  have h2 := c5_threshold_amended 0 c1protocol sampleEvent
    (mkRat 0 1)
    (by with_unfolding_all rfl)
    (of_decide_eq_true (by with_unfolding_all rfl))
    (by with_unfolding_all rfl)
    (by with_unfolding_all rfl)
    (fun q h => Option.noConfusion h)
    (of_decide_eq_true (by with_unfolding_all rfl))
    (by with_unfolding_all rfl)
    rfl
    rfl
    (fun l h => Option.noConfusion h)
    (fun cm h => Option.noConfusion h)
    (fun u h => Option.noConfusion h)
  exact ⟨h1.1 (of_decide_eq_true (by with_unfolding_all rfl)),
         (h2.2 (of_decide_eq_true (by with_unfolding_all rfl))).2.2⟩
